import Mathlib

/-!
# Query profile reporter (app/qan/reporter.go)

A shallow embedding of `SparklineData`, `Reporter.filterByFingerprint` and
`Reporter.Profile`, and of the two constant spark-line SQL statements.

Conventions of the embedding.

* `float64` is an arbitrary type `F` carrying the operations the reporter
  uses (`0`, `1`, `/`, the conversions from integers, and `+` for the SQL
  aggregates).  Nothing is assumed about rounding; where a statement needs
  an order fact about division it is taken as an explicit hypothesis.
* A `time.Time` is represented by its Unix second (the windows of the
  reporter have second resolution); `zeroTimeUnix` is the Unix second of the
  zero `time.Time`.  Unix seconds are mathematical integers: the model covers
  the runs in which the `int64` arithmetic on them does not wrap.  The
  `time.Duration` of `end.Sub(begin)` is an `int64` of nanoseconds and
  saturates as in Go.
* The database handle is a record of answer functions, one per shape of
  scanned row, each keyed by the SQL text and the argument list that the
  reporter sends.  A row stream is a list whose items are either a decoded
  row or the error that `Scan` returns for that row.
* A run that panics in Go (nil `*sql.Rows`, index out of range, negative
  `make` length) is the value `none`.
-/

namespace Qan

/-! ## Data model -/

/-- Unix second of a `time.Time`. -/
abbrev Time := Int

/-- Unix second of the zero `time.Time` (January 1, year 1, 00:00:00 UTC). -/
def zeroTimeUnix : Time := -62135596800

/-- Error reported by the database driver. -/
abbrev DBErr := String

/-- Modelled from the spec: the value of `sql.NullFloat64` (the reporter reads
its `Float64` field); a SQL NULL scans to `Float64 = 0`, `Valid = false`. -/
structure NullFloat64 (F : Type) where
  Float64 : F
  Valid : Bool
deriving DecidableEq, Repr

/-- Modelled from the spec: `metrics.Stats`, the Stat of the data model, with
the field names the reporter scans into. -/
structure Stats (F : Type) where
  Cnt : Nat
  Sum : NullFloat64 F
  Min : NullFloat64 F
  Avg : NullFloat64 F
  Med : NullFloat64 F
  P95 : NullFloat64 F
  Max : NullFloat64 F
deriving DecidableEq, Repr

/-- Modelled from the spec: `qp.QueryLog`, the BucketPoint of the data model,
with the field names the reporter scans into. -/
structure QueryLog (F : Type) where
  Point : Nat
  Start_ts : Time
  Query_count : Nat
  Query_time_sum : F
  Query_time_avg : F
deriving DecidableEq, Repr

/-- Modelled from the spec: `qp.RankBy` (metric, statistic and the row limit). -/
structure RankBy where
  Metric : String
  Stat : String
  Limit : Nat
deriving DecidableEq, Repr

/-- Modelled from the spec: `qp.QueryRank`, the RankedEntry of the data model. -/
structure QueryRank (F : Type) where
  Rank : Nat
  Percentage : F
  Id : String
  Abstract : String
  Fingerprint : String
  QPS : F
  Load : F
  Log : List (QueryLog F)
  Stats : Stats F
deriving DecidableEq, Repr

/-- Modelled from the spec: `qp.Profile`. -/
structure Profile (F : Type) where
  InstanceId : String
  Begin : Time
  End : Time
  TotalTime : Nat
  TotalQueries : Nat
  RankBy : RankBy
  Query : List (QueryRank F)
deriving DecidableEq, Repr

/-- The Go `error` values the reporter returns, recorded by the call that
builds them: `mysql.Error(err, msg)` (with `err = nil` as `none`) and
`fmt.Errorf(msg)`. -/
inductive GoError where
  | mysqlError (err : Option DBErr) (msg : String)
  | errorf (msg : String)
deriving DecidableEq, Repr

/-- An argument bound to a `?` of a statement. -/
inductive Arg where
  | int64 (i : Int)
  | uint (n : Nat)
  | time (t : Time)
  | str (s : String)
deriving DecidableEq, Repr

/-- One row of the spark-line statements as the store sends it: `point` and
`start_ts` are NULL (`none`) when the SQL expression that computes them is. -/
structure SparkRow (F : Type) where
  point : Option Int
  start_ts : Option Time
  query_count : Nat
  query_time_sum : F
  query_time_avg : F
deriving DecidableEq, Repr

/-- The database handle `qr.dbm.DB()`: the answer to every statement the
reporter sends, by the shape of the row that is scanned.  A failed
`QueryRow(...).Scan(...)` is an error answer; the model then leaves the
destinations as they were, where Go has stored the columns before the failing
one (this shows only in the `p` returned next to that error). -/
structure DB (F : Type) where
  /-- Answer to `Query` for a spark-line statement. -/
  QuerySpark : String → List Arg → Except DBErr (List (SparkRow F))
  /-- Answer to `QueryRow(...).Scan(&p.TotalQueries)`. -/
  QueryRowCount : String → List Arg → Except DBErr Nat
  /-- Answer to `QueryRow(...).Scan(&p.TotalTime, &s.Cnt, &s.Sum, ...)`. -/
  QueryRowGlobal : String → List Arg → Except DBErr (Nat × Stats F)
  /-- Answer to `Query` for the ranked rows: class id and its Stat. -/
  QueryRanked : String → List Arg → Except DBErr (List (Except DBErr (Nat × Stats F)))
  /-- Answer to `Query` for the display metadata. -/
  QueryClasses : String → List Arg → Except DBErr (List (Except DBErr (Nat × String × String × String)))
  /-- Answer to `Query` of `filterByFingerprint`. -/
  QueryFingerprint : String → List Arg → Except DBErr (List (Except DBErr Nat))

/-- The reporter; only the database handle is read. -/
structure Reporter (F : Type) where
  dbm : DB F

/-- Modelled from the spec: what the reporter uses of the packages `metrics`
and `shared`, whose sources are not part of the files at hand.  `StatNames`
lists the statistic names and contains the `"p5"` entry that the reporter
skips. -/
structure Metrics where
  StatNames : List String
  AggregateFunction : String → String → String → String
  Placeholders : Nat → String
  p5_mem : "p5" ∈ StatNames

def amountOfPoints : Nat := 60

def sparkLinesQueryClass : String :=
  "SELECT (? - UNIX_TIMESTAMP(start_ts)) DIV ? as point," ++
  " FROM_UNIXTIME(? - (SELECT point) * ?) as start_ts, SUM(query_count), SUM(Query_time_sum), AVG(Query_time_avg) " ++
  " FROM query_class_metrics" ++
  " WHERE query_class_id = ? and instance_id = ? AND (start_ts >= ? AND start_ts < ?) GROUP BY point;"

def sparkLinesQueryGlobal : String :=
  "SELECT (? - UNIX_TIMESTAMP(start_ts)) DIV ? as point," ++
  " FROM_UNIXTIME(? - (SELECT point) * ?) as start_ts, SUM(total_query_count), SUM(Query_time_sum), AVG(Query_time_avg) " ++
  " FROM query_global_metrics " ++
  " WHERE instance_id = ? AND (start_ts >= ? AND start_ts < ?) GROUP BY point;"

/-! ## SparklineData -/

section Sparkline

variable {F : Type} [Zero F]

/-- The value of `ql` after `sparkLinesRows.Scan(&ql.Point, &ql.Start_ts, ...)`,
whose error is not looked at: `Scan` stores column by column and stops at the
first column it cannot convert (a NULL, or a negative number for the `uint`),
so the fields from that column on keep the zero value. -/
def scanSparkRow (raw : SparkRow F) : QueryLog F :=
  match raw.point with
  | none => ⟨0, zeroTimeUnix, 0, 0, 0⟩
  | some pt =>
    if pt < 0 then ⟨0, zeroTimeUnix, 0, 0, 0⟩
    else
      match raw.start_ts with
      | none => ⟨pt.toNat, zeroTimeUnix, 0, 0, 0⟩
      | some ts => ⟨pt.toNat, ts, raw.query_count, raw.query_time_sum, raw.query_time_avg⟩

/-- The first loop of `SparklineData`: `queryLogArrRaw[ql.Start_ts.Unix()] = ql`
for every row, the map being an association list read from its head. -/
def fillRaw (rows : List (SparkRow F)) : List (Time × QueryLog F) :=
  rows.foldl (fun queryLogArrRaw raw => ((scanSparkRow raw).Start_ts, scanSparkRow raw) :: queryLogArrRaw) []

/-- The body of the second loop of `SparklineData` for one `i`. -/
def sparkPoint (queryLogArrRaw : List (Time × QueryLog F)) (endTs intervalTs : Int) (i : Nat) :
    QueryLog F :=
  let ts := endTs - (i : Int) * intervalTs
  match queryLogArrRaw.lookup ts with
  | some val => val
  | none => ⟨i, ts, 0, 0, 0⟩

/-- The statement and the arguments `SparklineData` sends. -/
def sparkStatement (endTs intervalTs : Int) (queryClassId instanceId : Nat) (begin end_ : Time) :
    String × List Arg :=
  let args := [Arg.int64 endTs, Arg.int64 intervalTs, Arg.int64 endTs, Arg.int64 intervalTs,
    Arg.uint queryClassId, Arg.uint instanceId, Arg.time begin, Arg.time end_]
  if queryClassId = 0 then (sparkLinesQueryGlobal, args.take 4 ++ args.drop 5)
  else (sparkLinesQueryClass, args)

/-- Go `SparklineData`.  A failed `Query` leaves `sparkLinesRows` nil and the
function panics on it. -/
def SparklineData (qr : Reporter F) (endTs intervalTs : Int) (queryClassId instanceId : Nat)
    (begin end_ : Time) : Option (List (QueryLog F)) :=
  let st := sparkStatement endTs intervalTs queryClassId instanceId begin end_
  match qr.dbm.QuerySpark st.1 st.2 with
  | .error _ => none
  | .ok sparkLinesRows =>
    let queryLogArrRaw := fillRaw sparkLinesRows
    some ((List.range amountOfPoints).map (sparkPoint queryLogArrRaw endTs intervalTs))

end Sparkline

/-! ## The spark-line statements, read as SQL -/

section SparkSQL

variable {F : Type} [Zero F] [Add F] [Div F] [NatCast F]

/-- A row of `query_class_metrics`, with the columns the statement reads.
`start_ts` is the value of `UNIX_TIMESTAMP(start_ts)`, which is never
negative. -/
structure ClassMetric (F : Type) where
  query_class_id : Nat
  instance_id : Nat
  start_ts : Nat
  query_count : Nat
  Query_time_sum : F
  Query_time_avg : F
deriving DecidableEq, Repr

/-- A row of `query_global_metrics`, with the columns the statement reads. -/
structure GlobalMetric (F : Type) where
  instance_id : Nat
  start_ts : Nat
  total_query_count : Nat
  Query_time_sum : F
  Query_time_avg : F
deriving DecidableEq, Repr

/-- A stored bucket that passed the WHERE clause. -/
structure Bucket (F : Type) where
  start_ts : Nat
  count : Nat
  sum : F
  avg : F
deriving DecidableEq, Repr

/-- MySQL `a DIV b`: NULL for a zero divisor, else the quotient rounded
towards zero. -/
def sqlDiv (a b : Int) : Option Int :=
  if b = 0 then none else some (Int.tdiv a b)

/-- The expression `(? - UNIX_TIMESTAMP(start_ts)) DIV ?`. -/
def pointIndex (endTs intervalTs : Int) (start_ts : Nat) : Option Int :=
  sqlDiv (endTs - (start_ts : Int)) intervalTs

/-- SQL `SUM` over a group of float values. -/
def sqlSum (xs : List F) : F := xs.foldr (fun x acc => x + acc) 0

/-- SQL `AVG` over a group of float values. -/
def sqlAvg (xs : List F) : F := sqlSum xs / ((xs.length : Nat) : F)

/-- The SELECT list for the group of one value `pt` of `point`:
`FROM_UNIXTIME(? - (SELECT point) * ?)` and the three aggregates over the
buckets of the group. -/
def pointRow (endTs intervalTs : Int) (bs : List (Bucket F)) (pt : Option Int) : SparkRow F :=
  let grp := bs.filter (fun b => pointIndex endTs intervalTs b.start_ts = pt)
  { point := pt
    start_ts := pt.map (fun k => endTs - k * intervalTs)
    query_count := (grp.map (fun b => b.count)).sum
    query_time_sum := sqlSum (grp.map (fun b => b.sum))
    query_time_avg := sqlAvg (grp.map (fun b => b.avg)) }

/-- The SELECT list over `GROUP BY point`: one row per distinct value of
`point` among the selected buckets. -/
def groupByPoint (endTs intervalTs : Int) (bs : List (Bucket F)) : List (SparkRow F) :=
  ((bs.map (fun b => pointIndex endTs intervalTs b.start_ts)).dedup).map
    (pointRow endTs intervalTs bs)

/-- The rows of `query_class_metrics` selected by `sparkLinesQueryClass`. -/
def whereClass (tbl : List (ClassMetric F)) (queryClassId instanceId : Nat) (begin end_ : Time) :
    List (Bucket F) :=
  (tbl.filter (fun m => m.query_class_id = queryClassId ∧ m.instance_id = instanceId ∧
      (begin ≤ (m.start_ts : Int) ∧ (m.start_ts : Int) < end_))).map
    (fun m => ⟨m.start_ts, m.query_count, m.Query_time_sum, m.Query_time_avg⟩)

/-- The rows of `query_global_metrics` selected by `sparkLinesQueryGlobal`. -/
def whereGlobal (tbl : List (GlobalMetric F)) (instanceId : Nat) (begin end_ : Time) :
    List (Bucket F) :=
  (tbl.filter (fun m => m.instance_id = instanceId ∧
      (begin ≤ (m.start_ts : Int) ∧ (m.start_ts : Int) < end_))).map
    (fun m => ⟨m.start_ts, m.total_query_count, m.Query_time_sum, m.Query_time_avg⟩)

/-- The buckets of the target in the window: those of the class, or those of
the whole instance for the target 0. -/
def selectedBuckets (classTbl : List (ClassMetric F)) (globalTbl : List (GlobalMetric F))
    (queryClassId instanceId : Nat) (begin end_ : Time) : List (Bucket F) :=
  if queryClassId = 0 then whereGlobal globalTbl instanceId begin end_
  else whereClass classTbl queryClassId instanceId begin end_

/-- The store response to the spark-line statement of a target (step 2 of the
Bucketizer). -/
def sparkLinesRows (classTbl : List (ClassMetric F)) (globalTbl : List (GlobalMetric F))
    (endTs intervalTs : Int) (queryClassId instanceId : Nat) (begin end_ : Time) :
    List (SparkRow F) :=
  groupByPoint endTs intervalTs (selectedBuckets classTbl globalTbl queryClassId instanceId begin end_)

end SparkSQL

/-! ## Reporter.filterByFingerprint -/

section ProfileDefs

variable {F : Type} [Zero F] [One F] [Add F] [Div F] [NatCast F] [IntCast F]

def filterQuery : String :=
  "\n        SELECT qc.query_class_id\n" ++
  "        FROM query_classes AS qc, query_class_metrics AS qcm\n" ++
  "        WHERE qc.query_class_id = qcm.query_class_id\n" ++
  "            AND qcm.instance_id = ?\n" ++
  "            AND qcm.start_ts > ?\n" ++
  "            AND qcm.end_ts <= ?\n" ++
  "            AND (qc.checksum = ? OR qc.abstract LIKE ? OR qc.fingerprint LIKE ?)\n" ++
  "        GROUP BY qc.query_class_id;\n        "

/-- The row loop of `filterByFingerprint`: a row that does not scan ends the
function with the identifiers read so far and the error. -/
def filterLoop : List (Except DBErr Nat) → List Nat → List Nat × Option GoError
  | [], queryClassIds => (queryClassIds, none)
  | .error err :: _, queryClassIds =>
    (queryClassIds, some (.mysqlError (some err)
      "Reporter.filterByFingerprint: SELECT query_classes AS qc LIKE"))
  | .ok queryClassId :: rows, queryClassIds => filterLoop rows (queryClassIds ++ [queryClassId])

/-- Go `Reporter.filterByFingerprint`. -/
def Reporter.filterByFingerprint (qr : Reporter F) (instanceId : Nat) (begin end_ : Time)
    (search : String) : List Nat × Option GoError :=
  match qr.dbm.QueryFingerprint filterQuery
      [Arg.uint instanceId, Arg.time begin, Arg.time end_, Arg.str search,
        Arg.str (search ++ "%"), Arg.str ("%" ++ search ++ "%")] with
  | .error err =>
    ([], some (.mysqlError (some err)
      "Reporter.filterByFingerprint: SELECT query_classes AS qc, query_examples AS qe LIKE"))
  | .ok rows => filterLoop rows []

/-! ## Reporter.Profile -/

/-- The loop `for _, stat := range metrics.StatNames` that fills `stats`: the
name `"p5"` is skipped, every other name stores its expression at the next
index, and an index past the end of `stats` panics. -/
def fillStats (f : String → String) : List String → Nat → List String → Option (List String)
  | [], _, stats => some stats
  | stat :: names, i, stats =>
    if stat = "p5" then fillStats f names i stats
    else if i < stats.length then fillStats f names (i + 1) (stats.set i (f stat))
    else none

/-- The text `make([]string, len(metrics.StatNames)-1)`; a negative length
panics. -/
def makeStats (m : Metrics) : Option (List String) :=
  if m.StatNames.length = 0 then none else some (List.replicate (m.StatNames.length - 1) "")

/-- The slice `stats` before the global row is requested: made, then filled
with the expressions over `"total_query_count"`. -/
def firstStats (m : Metrics) (r : RankBy) : Option (List String) :=
  match makeStats m with
  | none => none
  | some stats =>
    fillStats (fun stat => m.AggregateFunction r.Metric stat "total_query_count") m.StatNames 0
      stats

/-- The slice `stats` before the ranked rows are requested: filled again, with
the expressions over `"query_count"`. -/
def secondStats (m : Metrics) (r : RankBy) (stats : List String) : Option (List String) :=
  fillStats (fun stat => m.AggregateFunction r.Metric stat "query_count") m.StatNames 0 stats

/-- The text `searchIn` built from the search text and the filtered ids. -/
def searchInClause (search : String) (filterQueryClassIds : List Nat) : String :=
  if search ≠ "" then
    " AND query_class_id IN (" ++ ", ".intercalate (filterQueryClassIds.map toString) ++ ") "
  else ""

/-- The statement `countUnique`. -/
def countUniqueQuery (searchIn : String) : String :=
  let countUnique := "SELECT COUNT(DISTINCT query_class_id) " ++
    " FROM query_class_metrics WHERE instance_id = ? " ++
    " AND (start_ts >= ? AND start_ts < ?) "
  if searchIn ≠ "" then countUnique ++ searchIn else countUnique

/-- The statement of the global row. -/
def globalQuery (stats : List String) : String :=
  "SELECT COALESCE(SUM(TIMESTAMPDIFF(SECOND, start_ts, end_ts)), 0), COALESCE(SUM(total_query_count), 0), " ++
    ", ".intercalate stats ++
    " FROM query_global_metrics" ++
    " WHERE instance_id = ? AND (start_ts >= ? AND start_ts < ?)"

/-- The statement of the ranked rows, `%s` and `%d` filled in as `fmt.Sprintf`
does for a text without further verbs. -/
def rankedQuery (m : Metrics) (r : RankBy) (stats : List String) (searchIn : String)
    (offset : Int) : String :=
  "SELECT query_class_id, SUM(query_count), " ++ ", ".intercalate stats ++
    " FROM query_class_metrics" ++
    " WHERE instance_id = ? AND (start_ts >= ? AND start_ts < ?)" ++
    " " ++ searchIn ++ " " ++
    " GROUP BY query_class_id" ++
    " ORDER BY " ++ m.AggregateFunction r.Metric r.Stat "query_count" ++ " DESC" ++
    " LIMIT " ++ toString r.Limit ++ " OFFSET " ++ toString offset ++ " "

/-- The statement of the display metadata. -/
def classesQuery (m : Metrics) (n : Nat) : String :=
  "SELECT query_class_id, checksum, abstract, fingerprint" ++
    " FROM query_classes" ++
    " WHERE query_class_id IN (" ++ m.Placeholders n ++ ")"

/-- The local variables of `Profile` that the ranked-row loop updates. -/
structure RankLoop (F : Type) where
  Query : List (QueryRank F)
  query : List (Nat × Nat)
  queryClassIds : List Nat
  rank : Nat

/-- The loop over the ranked rows.  The result is the state when the loop
ends and the scan error that ended it, if any; `none` is a panic (of
`SparklineData`, or of `p.Query[rank] = r` past the end of `p.Query`). -/
def rankLoop (qr : Reporter F) (endTs intervalTs : Int) (instanceId : Nat) (begin end_ : Time)
    (globalSum intervalTime : F) :
    List (Except DBErr (Nat × Stats F)) → RankLoop F → Option (RankLoop F × Option GoError)
  | [], st => some (st, none)
  | .error err :: _, st =>
    some (st, some (.mysqlError (some err) "Reporter.Profile: SELECT query_class_metrics"))
  | .ok (queryClassId, stats) :: rows, st =>
    match SparklineData qr endTs intervalTs queryClassId instanceId begin end_ with
    | none => none
    | some log =>
      let r : QueryRank F :=
        { Rank := st.rank
          Percentage := stats.Sum.Float64 / globalSum
          Id := ""
          Abstract := ""
          Fingerprint := ""
          QPS := (stats.Cnt : F) / intervalTime
          Load := stats.Sum.Float64 / intervalTime
          Log := log
          Stats := stats }
      if st.rank < st.Query.length then
        rankLoop qr endTs intervalTs instanceId begin end_ globalSum intervalTime rows
          { Query := st.Query.set st.rank r
            query := (queryClassId, st.rank) :: st.query
            queryClassIds := st.queryClassIds ++ [queryClassId]
            rank := st.rank + 1 }
      else none

/-- The loop over the metadata rows: `rank := query[queryClassId]` (0 for an
absent key) and the three assignments to `p.Query[rank]`. -/
def classesLoop (query : List (Nat × Nat)) :
    List (Except DBErr (Nat × String × String × String)) → List (QueryRank F) →
    Option (List (QueryRank F) × Option GoError)
  | [], Query => some (Query, none)
  | .error err :: _, Query =>
    some (Query, some (.mysqlError (some err) "Reporter.Profile: SELECT query_classes"))
  | .ok (queryClassId, checksum, abstract, fingerprint) :: rows, Query =>
    let rank := (query.lookup queryClassId).getD 0
    match Query[rank]? with
    | none => none
    | some e =>
      classesLoop query rows
        (Query.set rank { e with Id := checksum, Abstract := abstract, Fingerprint := fingerprint })

/-- A `time.Duration`: a number of nanoseconds held in an `int64`. -/
abbrev Duration := Int

/-- The largest `time.Duration`, `1<<63 - 1` nanoseconds (about 292 years). -/
def maxDuration : Duration := 9223372036854775807

/-- The smallest `time.Duration`, `-1 << 63` nanoseconds. -/
def minDuration : Duration := -9223372036854775808

/-- Go `Time.Sub` on two times of whole seconds: the difference `t - u` in
nanoseconds when it fits a `time.Duration`, else the smallest duration for
`t` before `u` and the largest one otherwise. -/
def Time.Sub (t u : Time) : Duration :=
  let d : Int := (t - u) * 1000000000
  if minDuration ≤ d ∧ d ≤ maxDuration then d
  else if t < u then minDuration
  else maxDuration

/-- Go `Duration.Seconds`: with `sec := d / Second` and `nsec := d % Second`
(rounded towards zero), `float64(sec) + float64(nsec)/1e9`. -/
def Duration.Seconds (d : Duration) : F :=
  ((Int.tdiv d 1000000000 : Int) : F) +
    ((Int.tmod d 1000000000 : Int) : F) / ((1000000000 : Nat) : F)

/-- The text `(endTs - begin.Unix()) / (amountOfPoints - 1)`: Go integer
division, rounded towards zero. -/
def intervalTsOf (begin end_ : Time) : Int :=
  Int.tdiv (end_ - begin) ((amountOfPoints : Int) - 1)

/-- The entry without its display metadata. -/
def QueryRank.figures (e : QueryRank F) : QueryRank F :=
  { e with Id := "", Abstract := "", Fingerprint := "" }

/-- The zero value of `qp.QueryRank`. -/
def zeroQueryRank : QueryRank F :=
  { Rank := 0, Percentage := 0, Id := "", Abstract := "", Fingerprint := "", QPS := 0, Load := 0,
    Log := [],
    Stats := ⟨0, ⟨0, false⟩, ⟨0, false⟩, ⟨0, false⟩, ⟨0, false⟩, ⟨0, false⟩, ⟨0, false⟩⟩ }

/-- The entry `p.Query[0]` for the global row `s`. -/
def globalEntry (s : Stats F) (intervalTime : F) (log : List (QueryLog F)) : QueryRank F :=
  { (zeroQueryRank : QueryRank F) with
    Percentage := 1
    Stats := s
    QPS := (s.Cnt : F) / intervalTime
    Load := s.Sum.Float64 / intervalTime
    Log := log }

/-- The part of `Profile` after the short-circuit on `p.TotalTime == 0`: the
global entry, the ranked rows and the display metadata. -/
def profileRanked (m : Metrics) (qr : Reporter F) (instanceId : Nat) (begin end_ : Time)
    (r : RankBy) (offset : Int) (searchIn : String) (stats : List String) (s : Stats F)
    (p : Profile F) : Option (Profile F × Option GoError) :=
  let intervalTime : F := Duration.Seconds (Time.Sub end_ begin)
  let endTs : Int := end_
  let intervalTs : Int := intervalTsOf begin endTs
  let globalSum := s.Sum.Float64
  match SparklineData qr endTs intervalTs 0 instanceId begin end_ with
  | none => none
  | some log0 =>
    let Query0 : List (QueryRank F) :=
      (List.replicate (r.Limit + 1) zeroQueryRank).set 0 (globalEntry s intervalTime log0)
    match secondStats m r stats with
    | none => none
    | some stats =>
      match qr.dbm.QueryRanked (rankedQuery m r stats searchIn offset)
          [Arg.uint instanceId, Arg.time begin, Arg.time end_] with
      | .error err =>
        some ({ p with Query := Query0 },
          some (.mysqlError (some err) "Reporter.Profile: SELECT query_class_metrics"))
      | .ok rows =>
        match rankLoop qr endTs intervalTs instanceId begin end_ globalSum intervalTime rows
            { Query := Query0, query := [], queryClassIds := [], rank := 1 } with
        | none => none
        | some (st, some err) => some ({ p with Query := st.Query }, some err)
        | some (st, none) =>
          if st.queryClassIds.length = 0 then
            some ({ p with Query := st.Query },
              some (.errorf ("No query classes for selected instance and time range. " ++
                "Please check whether your MySQL settings match the recommended.")))
          else
            let Query := st.Query.take st.rank
            match qr.dbm.QueryClasses (classesQuery m st.queryClassIds.length)
                (st.queryClassIds.map Arg.uint) with
            | .error err =>
              some ({ p with Query := Query },
                some (.mysqlError (some err) "Reporter.Profile: SELECT query_classes"))
            | .ok rows =>
              match classesLoop st.query rows Query with
              | none => none
              | some (Query, err) => some ({ p with Query := Query }, err)

/-- The part of `Profile` from `intervalTime := ...` to the short-circuit: the
first `stats`, the distinct-class count and the global row. -/
def profileAggregate (m : Metrics) (qr : Reporter F) (instanceId : Nat) (begin end_ : Time)
    (r : RankBy) (offset : Int) (searchIn : String) (p : Profile F) :
    Option (Profile F × Option GoError) :=
  match firstStats m r with
  | none => none
  | some stats =>
    match qr.dbm.QueryRowCount (countUniqueQuery searchIn)
        [Arg.uint instanceId, Arg.time begin, Arg.time end_] with
    | .error err =>
      some (p, some (.mysqlError (some err)
        "Reporter.Profile: SELECT COUNT(DISTINCT query_class_id)"))
    | .ok totalQueries =>
      let p := { p with TotalQueries := totalQueries }
      match qr.dbm.QueryRowGlobal (globalQuery stats)
          [Arg.uint instanceId, Arg.time begin, Arg.time end_] with
      | .error err =>
        some (p, some (.mysqlError (some err) "Reporter.Profile: SELECT query_global_metrics"))
      | .ok (totalTime, s) =>
        let p := { p with TotalTime := totalTime }
        if p.TotalTime = 0 then some (p, none)
        else profileRanked m qr instanceId begin end_ r offset searchIn stats s p

/-- The value of `filterQueryClassIds` after the `if search != ""` block; the
error of `filterByFingerprint` is assigned to `_`. -/
def Reporter.filterIds (qr : Reporter F) (instanceId : Nat) (begin end_ : Time)
    (search : String) : List Nat :=
  if search ≠ "" then (qr.filterByFingerprint instanceId begin end_ search).1 else []

/-- Go `Reporter.Profile`.  The result is the pair the function returns;
`none` is a panic. -/
def Reporter.Profile (m : Metrics) (qr : Reporter F) (instanceId : Nat) (begin end_ : Time)
    (r : RankBy) (offset : Int) (search : String) : Option (Qan.Profile F × Option GoError) :=
  let p : Qan.Profile F :=
    { InstanceId := "", Begin := begin, End := end_, TotalTime := 0, TotalQueries := 0,
      RankBy := r, Query := [] }
  let filterQueryClassIds : List Nat := qr.filterIds instanceId begin end_ search
  if search ≠ "" ∧ filterQueryClassIds.length = 0 then
    some (p, some (.mysqlError none
      "None of the queries, in selected time range, do not contain this substring."))
  else
    profileAggregate m qr instanceId begin end_ r offset
      (searchInClause search filterQueryClassIds) p

end ProfileDefs

/-! ## Stores used as concrete inputs -/

section Fixtures

/-- A store that answers the spark-line statements from two tables, as the
SQL text prescribes; the arguments are read back from the argument list. -/
def tableSpark {F : Type} [Zero F] [Add F] [Div F] [NatCast F]
    (classTbl : List (ClassMetric F)) (globalTbl : List (GlobalMetric F)) :
    String → List Arg → Except DBErr (List (SparkRow F))
  | _, [Arg.int64 endTs, Arg.int64 intervalTs, _, _, Arg.uint queryClassId, Arg.uint instanceId,
      Arg.time begin, Arg.time end_] =>
    .ok (groupByPoint endTs intervalTs (whereClass classTbl queryClassId instanceId begin end_))
  | _, [Arg.int64 endTs, Arg.int64 intervalTs, _, _, Arg.uint instanceId, Arg.time begin,
      Arg.time end_] =>
    .ok (groupByPoint endTs intervalTs (whereGlobal globalTbl instanceId begin end_))
  | _, _ => .error "unexpected arguments"

/-- The statistic names of the scenario. -/
def scenarioMetrics : Metrics :=
  { StatNames := ["sum", "min", "p5", "avg", "med", "p95", "max"]
    AggregateFunction := fun metric stat _ => stat ++ "(" ++ metric ++ ")"
    Placeholders := fun n => ", ".intercalate (List.replicate n "?")
    p5_mem := by decide }

/-- Stat with the given count and sum, the other statistics NULL. -/
def statOf (cnt : Nat) (sum : ℚ) : Stats ℚ :=
  ⟨cnt, ⟨sum, true⟩, ⟨0, false⟩, ⟨0, false⟩, ⟨0, false⟩, ⟨0, false⟩, ⟨0, false⟩⟩

/-- The class buckets of the scenario of the spec: instance 1, window
`[3600, 7140)`, class 1 (count 10, sum 100) and class 2 (count 5, sum 50),
one bucket each. -/
def scenarioClassTbl : List (ClassMetric ℚ) :=
  [⟨1, 1, 3600, 10, 100, 10⟩, ⟨2, 1, 7080, 5, 50, 10⟩]

/-- The global buckets of the scenario. -/
def scenarioGlobalTbl : List (GlobalMetric ℚ) :=
  [⟨1, 3600, 10, 100, 10⟩, ⟨1, 7080, 5, 50, 10⟩]

/-- The store of the scenario: 2 classes, 120 covered seconds, global count 15
and sum 150, ranked rows for class 1 then class 2. -/
def scenarioDB : DB ℚ :=
  { QuerySpark := tableSpark scenarioClassTbl scenarioGlobalTbl
    QueryRowCount := fun _ _ => .ok 2
    QueryRowGlobal := fun _ _ => .ok (120, statOf 15 150)
    QueryRanked := fun _ _ => .ok [.ok (1, statOf 10 100), .ok (2, statOf 5 50)]
    QueryClasses := fun _ _ => .ok [.ok (1, "A1", "SELECT a", "select a from t"),
      .ok (2, "B2", "SELECT b", "select b from t")]
    QueryFingerprint := fun _ _ => .ok [.ok 1] }

/-- A class table with one bucket of class 1 that starts with the five-minute
window `[1000, 1300)`. -/
def fiveMinuteTbl : List (ClassMetric ℚ) :=
  [⟨1, 1, 1000, 5, 50, 10⟩]

/-- The store over `fiveMinuteTbl`; only the spark-line answers matter. -/
def fiveMinuteDB : DB ℚ :=
  { scenarioDB with QuerySpark := tableSpark fiveMinuteTbl [] }

/-- The scenario store with a failing statement of `filterByFingerprint`. -/
def lostFilterDB : DB ℚ :=
  { scenarioDB with QueryFingerprint := fun _ _ => .error "connection lost" }

/-- The scenario store where the second row of `filterByFingerprint` does not
scan. -/
def halfFilterDB : DB ℚ :=
  { scenarioDB with QueryFingerprint := fun _ _ => .ok [.ok 1, .error "bad row"] }

/-- The scenario store with an empty `query_global_metrics`: the global row is
all zero, and `query_class_metrics` still has its 2 classes. -/
def idleDB : DB ℚ :=
  { scenarioDB with QueryRowGlobal := fun _ _ => .ok (0, statOf 0 0) }

/-- The scenario store for a metric that is 0 in every bucket: 120 covered
seconds, global sum 0, class sums 0. -/
def zeroSumDB : DB ℚ :=
  { scenarioDB with
    QueryRowGlobal := fun _ _ => .ok (120, statOf 15 0)
    QueryRanked := fun _ _ => .ok [.ok (1, statOf 10 0), .ok (2, statOf 5 0)] }

/-- The ranking of the scenario: by the sum of the query time, 2 rows. -/
def scenarioRankBy : RankBy := ⟨"Query_time", "sum", 2⟩

/-- The profile `Profile` returns in the scenario without a search text. -/
def scenarioProfile : Profile ℚ :=
  ((Reporter.Profile scenarioMetrics ⟨scenarioDB⟩ 1 3600 7140 scenarioRankBy 0 "").map
    Prod.fst).getD ⟨"", 0, 0, 0, 0, scenarioRankBy, []⟩

/-- The global entry of `scenarioProfile`. -/
def scenarioEntry0 : QueryRank ℚ := scenarioProfile.Query.headD zeroQueryRank

/-- The entry of rank 1 of `scenarioProfile`. -/
def scenarioEntry1 : QueryRank ℚ := scenarioProfile.Query.getD 1 zeroQueryRank

/-- The profile `Profile` returns on the scenario store for the window
`[0, 2^34)`, about 544 years long. -/
def longWindowProfile : Profile ℚ :=
  ((Reporter.Profile scenarioMetrics ⟨scenarioDB⟩ 1 0 17179869184 scenarioRankBy 0 "").map
    Prod.fst).getD ⟨"", 0, 0, 0, 0, scenarioRankBy, []⟩

/-- The entry of rank 1 of `longWindowProfile`. -/
def longWindowEntry1 : QueryRank ℚ := longWindowProfile.Query.getD 1 zeroQueryRank

/-- The profile `Profile` returns in the scenario for the search text
`"select"`. -/
def scenarioSearchProfile : Profile ℚ :=
  ((Reporter.Profile scenarioMetrics ⟨scenarioDB⟩ 1 3600 7140 scenarioRankBy 0 "select").map
    Prod.fst).getD ⟨"", 0, 0, 0, 0, scenarioRankBy, []⟩

end Fixtures


/-! ## Association lists -/

section Lookup

variable {K V : Type} [BEq K] [LawfulBEq K]

theorem lookup_eq_none_of_keys_ne (l : List (K × V)) (k : K) (h : ∀ q ∈ l, q.1 ≠ k) :
    l.lookup k = none := by
  induction l with
  | nil => rfl
  | cons q l ih =>
    obtain ⟨a, v⟩ := q
    have hne : a ≠ k := h (a, v) (List.mem_cons_self _ _)
    have hk : (k == a) = false := by simpa using fun e => hne e.symm
    rw [List.lookup_cons, hk]
    exact ih fun q hq => h q (List.mem_cons_of_mem _ hq)

theorem mem_of_lookup_eq_some (l : List (K × V)) (k : K) (v : V) (h : l.lookup k = some v) :
    (k, v) ∈ l := by
  induction l with
  | nil => simp at h
  | cons q l ih =>
    obtain ⟨a, w⟩ := q
    rw [List.lookup_cons] at h
    by_cases hk : k = a
    · subst hk
      simp at h
      subst h
      exact List.mem_cons_self _ _
    · have hk2 : (k == a) = false := by simpa using hk
      rw [hk2] at h
      exact List.mem_cons_of_mem _ (ih h)

theorem lookup_ne_none_of_mem (l : List (K × V)) (k : K) (v : V) (h : (k, v) ∈ l) :
    ∃ w, l.lookup k = some w := by
  cases hl : l.lookup k with
  | some w => exact ⟨w, rfl⟩
  | none =>
    exfalso
    induction l with
    | nil => simp at h
    | cons q l ih =>
      obtain ⟨a, w⟩ := q
      rw [List.lookup_cons] at hl
      by_cases hk : k = a
      · subst hk
        simp at hl
      · have hk2 : (k == a) = false := by simpa using hk
        rw [hk2] at hl
        rcases List.mem_cons.1 h with h1 | h1
        · exact hk (by simpa using congrArg Prod.fst h1)
        · exact ih h1 hl

end Lookup

/-! ## SparklineData on the response of the spark-line statements -/

section SparklineThms

variable {F : Type} [Zero F]

theorem foldl_cons_eq_reverse {α β : Type} (f : α → β) (l : List α) (acc : List β) :
    l.foldl (fun acc x => f x :: acc) acc = (l.map f).reverse ++ acc := by
  induction l generalizing acc with
  | nil => rfl
  | cons x l ih => simp [List.foldl_cons, ih]

theorem mem_fillRaw (rows : List (SparkRow F)) (q : Time × QueryLog F) :
    q ∈ fillRaw rows ↔ ∃ raw ∈ rows, q = ((scanSparkRow raw).Start_ts, scanSparkRow raw) := by
  unfold fillRaw
  rw [foldl_cons_eq_reverse (fun raw : SparkRow F => ((scanSparkRow raw).Start_ts, scanSparkRow raw))]
  simp only [List.append_nil, List.mem_reverse, List.mem_map]
  constructor
  · rintro ⟨raw, h, rfl⟩
    exact ⟨raw, h, rfl⟩
  · rintro ⟨raw, h, rfl⟩
    exact ⟨raw, h, rfl⟩

/-- No row is stored under the key of point `i`: the placeholder is emitted. -/
theorem sparkPoint_placeholder (rows : List (SparkRow F)) (endTs intervalTs : Int) (i : Nat)
    (h : ∀ raw ∈ rows, (scanSparkRow raw).Start_ts ≠ endTs - (i : Int) * intervalTs) :
    sparkPoint (fillRaw rows) endTs intervalTs i = ⟨i, endTs - (i : Int) * intervalTs, 0, 0, 0⟩ := by
  unfold sparkPoint
  have hnone : (fillRaw rows).lookup (endTs - (i : Int) * intervalTs) = none := by
    apply lookup_eq_none_of_keys_ne
    intro q hq
    obtain ⟨raw, hraw, rfl⟩ := (mem_fillRaw rows q).1 hq
    exact h raw hraw
  simp only [hnone]

/-- A row is stored under the key of point `i` and every row under that key
scans to the same value: that value is emitted. -/
theorem sparkPoint_row (rows : List (SparkRow F)) (endTs intervalTs : Int) (i : Nat)
    (raw0 : SparkRow F) (h0 : raw0 ∈ rows)
    (hk : (scanSparkRow raw0).Start_ts = endTs - (i : Int) * intervalTs)
    (huniq : ∀ raw ∈ rows, (scanSparkRow raw).Start_ts = endTs - (i : Int) * intervalTs →
      scanSparkRow raw = scanSparkRow raw0) :
    sparkPoint (fillRaw rows) endTs intervalTs i = scanSparkRow raw0 := by
  unfold sparkPoint
  have hmem : (endTs - (i : Int) * intervalTs, scanSparkRow raw0) ∈ fillRaw rows :=
    (mem_fillRaw rows _).2 ⟨raw0, h0, by rw [hk]⟩
  obtain ⟨w, hw⟩ := lookup_ne_none_of_mem _ _ _ hmem
  obtain ⟨raw, hraw, he⟩ := (mem_fillRaw rows _).1 (mem_of_lookup_eq_some _ _ _ hw)
  have h1 : endTs - (i : Int) * intervalTs = (scanSparkRow raw).Start_ts := congrArg Prod.fst he
  have h2 : w = scanSparkRow raw := congrArg Prod.snd he
  simp only [hw]
  rw [h2]
  exact huniq raw hraw h1.symm

/-- The value `SparklineData` returns when the statement succeeds. -/
theorem SparklineData_of_rows (qr : Reporter F) (endTs intervalTs : Int)
    (queryClassId instanceId : Nat) (begin end_ : Time) (rows : List (SparkRow F))
    (hstore : qr.dbm.QuerySpark
      (sparkStatement endTs intervalTs queryClassId instanceId begin end_).1
      (sparkStatement endTs intervalTs queryClassId instanceId begin end_).2 = .ok rows) :
    SparklineData qr endTs intervalTs queryClassId instanceId begin end_ =
      some ((List.range amountOfPoints).map (sparkPoint (fillRaw rows) endTs intervalTs)) := by
  unfold SparklineData
  simp only [hstore]

end SparklineThms

/-! ## The point index -/

section PointIndexThms

theorem pointIndex_pos_span (endTs intervalTs : Int) (start_ts : Nat) (hs : 0 < intervalTs)
    (hb : (start_ts : Int) ≤ endTs) :
    pointIndex endTs intervalTs start_ts = some ((endTs - (start_ts : Int)) / intervalTs) := by
  unfold pointIndex sqlDiv
  rw [if_neg (ne_of_gt hs), Int.tdiv_eq_ediv (by omega) (le_of_lt hs)]

theorem pointIndex_zero_span (endTs : Int) (start_ts : Nat) :
    pointIndex endTs 0 start_ts = none := by
  simp [pointIndex, sqlDiv]

/-- For a positive span and a bucket that starts no later than `endTs`, the
point index is `k` exactly on `(endTs - (k+1)*span, endTs - k*span]`. -/
theorem pointIndex_eq_iff (endTs intervalTs : Int) (start_ts : Nat) (k : Int)
    (hs : 0 < intervalTs) (hb : (start_ts : Int) ≤ endTs) :
    pointIndex endTs intervalTs start_ts = some k ↔
      endTs - (k + 1) * intervalTs < (start_ts : Int) ∧ (start_ts : Int) ≤ endTs - k * intervalTs := by
  rw [pointIndex_pos_span endTs intervalTs start_ts hs hb, Option.some_inj]
  constructor
  · intro h
    have h1 := Int.ediv_mul_le (endTs - (start_ts : Int)) (ne_of_gt hs)
    have h2 := Int.lt_ediv_add_one_mul_self (endTs - (start_ts : Int)) hs
    rw [h] at h1 h2
    constructor <;> linarith
  · rintro ⟨h1, h2⟩
    have hle : k ≤ (endTs - (start_ts : Int)) / intervalTs :=
      (Int.le_ediv_iff_mul_le hs).2 (by linarith)
    have hlt : (endTs - (start_ts : Int)) / intervalTs < k + 1 :=
      (Int.ediv_lt_iff_lt_mul hs).2 (by linarith)
    omega

theorem pointIndex_nonneg (endTs intervalTs : Int) (start_ts : Nat) (k : Int)
    (hs : 0 < intervalTs) (hb : (start_ts : Int) ≤ endTs)
    (h : pointIndex endTs intervalTs start_ts = some k) : 0 ≤ k := by
  rw [pointIndex_pos_span endTs intervalTs start_ts hs hb, Option.some_inj] at h
  rw [← h]
  exact Int.ediv_nonneg (by omega) (le_of_lt hs)

end PointIndexThms

/-! ## The selected buckets and the span -/

section WindowThms

variable {F : Type}

theorem selectedBuckets_in_window (classTbl : List (ClassMetric F))
    (globalTbl : List (GlobalMetric F)) (queryClassId instanceId : Nat) (begin end_ : Time)
    (b : Bucket F) (hb : b ∈ selectedBuckets classTbl globalTbl queryClassId instanceId begin end_) :
    begin ≤ (b.start_ts : Int) ∧ (b.start_ts : Int) < end_ := by
  unfold selectedBuckets at hb
  split at hb
  · simp only [whereGlobal, List.mem_map, List.mem_filter, decide_eq_true_eq] at hb
    obtain ⟨m, ⟨_, _, h1, h2⟩, rfl⟩ := hb
    exact ⟨h1, h2⟩
  · simp only [whereClass, List.mem_map, List.mem_filter, decide_eq_true_eq] at hb
    obtain ⟨m, ⟨_, _, _, h1, h2⟩, rfl⟩ := hb
    exact ⟨h1, h2⟩

theorem intervalTsOf_nonneg (begin end_ : Time) (h : begin < end_) : 0 ≤ intervalTsOf begin end_ := by
  unfold intervalTsOf
  have h2 : (0 : Int) ≤ end_ - begin := Int.sub_nonneg_of_le (le_of_lt h)
  exact Int.tdiv_nonneg h2 (by simp [amountOfPoints])

end WindowThms

/-! ## The fill loop on the grouped rows -/

section GroupThms

variable {F : Type} [Zero F] [Add F] [Div F] [NatCast F]

theorem mem_groupByPoint (endTs intervalTs : Int) (bs : List (Bucket F)) (raw : SparkRow F) :
    raw ∈ groupByPoint endTs intervalTs bs ↔
      ∃ b ∈ bs, raw = pointRow endTs intervalTs bs (pointIndex endTs intervalTs b.start_ts) := by
  unfold groupByPoint
  simp only [List.mem_map, List.mem_dedup]
  constructor
  · rintro ⟨pt, ⟨b, hb, rfl⟩, rfl⟩
    exact ⟨b, hb, rfl⟩
  · rintro ⟨b, hb, rfl⟩
    exact ⟨_, ⟨b, hb, rfl⟩, rfl⟩

theorem scanSparkRow_pointRow_some (endTs intervalTs : Int) (bs : List (Bucket F)) (k : Int)
    (hk : 0 ≤ k) :
    scanSparkRow (pointRow endTs intervalTs bs (some k)) =
      ⟨k.toNat, endTs - k * intervalTs, (pointRow endTs intervalTs bs (some k)).query_count,
        (pointRow endTs intervalTs bs (some k)).query_time_sum,
        (pointRow endTs intervalTs bs (some k)).query_time_avg⟩ := by
  simp [scanSparkRow, pointRow, not_lt.2 hk]

theorem scanSparkRow_pointRow_none (endTs intervalTs : Int) (bs : List (Bucket F)) :
    scanSparkRow (pointRow endTs intervalTs bs none) = ⟨0, zeroTimeUnix, 0, 0, 0⟩ := by
  simp [scanSparkRow, pointRow]

/-- No selected bucket has point index `i`: the `i`-th point is the
placeholder.  This covers the span 0, where every index is NULL. -/
theorem sparkPoint_groupByPoint_absent (endTs intervalTs : Int) (bs : List (Bucket F)) (i : Nat)
    (hs : 0 ≤ intervalTs) (hb : ∀ b ∈ bs, (b.start_ts : Int) < endTs)
    (habs : ∀ b ∈ bs, pointIndex endTs intervalTs b.start_ts ≠ some (i : Int)) :
    sparkPoint (fillRaw (groupByPoint endTs intervalTs bs)) endTs intervalTs i =
      ⟨i, endTs - (i : Int) * intervalTs, 0, 0, 0⟩ := by
  apply sparkPoint_placeholder
  intro raw hraw
  obtain ⟨b, hbm, rfl⟩ := (mem_groupByPoint endTs intervalTs bs raw).1 hraw
  have hlt := hb b hbm
  rcases eq_or_lt_of_le hs with h0 | hpos
  · subst h0
    rw [pointIndex_zero_span, scanSparkRow_pointRow_none]
    intro hz
    have hz2 : (-62135596800 : Int) = endTs - (i : Int) * 0 := hz
    have hb0 : (0 : Int) ≤ (b.start_ts : Int) := Int.natCast_nonneg _
    omega
  · have hpt := pointIndex_pos_span endTs intervalTs b.start_ts hpos (le_of_lt hlt)
    have hk : 0 ≤ (endTs - (b.start_ts : Int)) / intervalTs :=
      Int.ediv_nonneg (by omega) (le_of_lt hpos)
    rw [hpt, scanSparkRow_pointRow_some _ _ _ _ hk]
    intro heq
    have heq2 : (endTs - (b.start_ts : Int)) / intervalTs * intervalTs = (i : Int) * intervalTs := by
      have : endTs - (endTs - (b.start_ts : Int)) / intervalTs * intervalTs
          = endTs - (i : Int) * intervalTs := heq
      linarith
    have hki := Int.eq_of_mul_eq_mul_right (ne_of_gt hpos) heq2
    exact habs b hbm (by rw [hpt, hki])

/-- Some selected bucket has point index `i` (so the span is not 0): the
`i`-th point is the row of the group `i`, with the start time the store
computed for it. -/
theorem sparkPoint_groupByPoint_present (endTs intervalTs : Int) (bs : List (Bucket F)) (i : Nat)
    (hs : 0 ≤ intervalTs) (hb : ∀ b ∈ bs, (b.start_ts : Int) < endTs)
    (hpres : ∃ b ∈ bs, pointIndex endTs intervalTs b.start_ts = some (i : Int)) :
    sparkPoint (fillRaw (groupByPoint endTs intervalTs bs)) endTs intervalTs i =
      ⟨i, endTs - (i : Int) * intervalTs,
        (pointRow endTs intervalTs bs (some (i : Int))).query_count,
        (pointRow endTs intervalTs bs (some (i : Int))).query_time_sum,
        (pointRow endTs intervalTs bs (some (i : Int))).query_time_avg⟩ := by
  obtain ⟨b0, hb0, hp0⟩ := hpres
  have hpos : 0 < intervalTs := by
    rcases eq_or_lt_of_le hs with h0 | hpos
    · subst h0
      rw [pointIndex_zero_span] at hp0
      exact absurd hp0 (by simp)
    · exact hpos
  have hscan := scanSparkRow_pointRow_some endTs intervalTs bs (i : Int) (Int.natCast_nonneg i)
  rw [Int.toNat_natCast] at hscan
  rw [← hscan]
  apply sparkPoint_row
  · exact (mem_groupByPoint endTs intervalTs bs _).2 ⟨b0, hb0, by rw [hp0]⟩
  · rw [hscan]
  · intro raw hraw hkey
    obtain ⟨b, hbm, rfl⟩ := (mem_groupByPoint endTs intervalTs bs raw).1 hraw
    have hlt := hb b hbm
    have hpt := pointIndex_pos_span endTs intervalTs b.start_ts hpos (le_of_lt hlt)
    have hk : 0 ≤ (endTs - (b.start_ts : Int)) / intervalTs :=
      Int.ediv_nonneg (by omega) (le_of_lt hpos)
    rw [hpt, scanSparkRow_pointRow_some _ _ _ _ hk] at hkey
    have heq2 : (endTs - (b.start_ts : Int)) / intervalTs * intervalTs = (i : Int) * intervalTs := by
      have : endTs - (endTs - (b.start_ts : Int)) / intervalTs * intervalTs
          = endTs - (i : Int) * intervalTs := hkey
      linarith
    have hki := Int.eq_of_mul_eq_mul_right (ne_of_gt hpos) heq2
    rw [hpt, hki]

end GroupThms

/-! ## SparklineData as called by Profile -/

section SeriesThms

variable {F : Type} [Zero F] [Add F] [Div F] [NatCast F]

/-- The `i`-th point of the series of a target, by whether a selected bucket
has point index `i`. -/
theorem sparkPoint_sparkLinesRows (classTbl : List (ClassMetric F))
    (globalTbl : List (GlobalMetric F)) (queryClassId instanceId : Nat) (begin end_ : Time)
    (hwin : begin < end_) (i : Nat) :
    ((∃ b ∈ selectedBuckets classTbl globalTbl queryClassId instanceId begin end_,
        pointIndex end_ (intervalTsOf begin end_) b.start_ts = some (i : Int)) ∧
      sparkPoint (fillRaw (sparkLinesRows classTbl globalTbl end_ (intervalTsOf begin end_)
          queryClassId instanceId begin end_)) end_ (intervalTsOf begin end_) i =
        ⟨i, end_ - (i : Int) * intervalTsOf begin end_,
          (pointRow end_ (intervalTsOf begin end_)
            (selectedBuckets classTbl globalTbl queryClassId instanceId begin end_)
            (some (i : Int))).query_count,
          (pointRow end_ (intervalTsOf begin end_)
            (selectedBuckets classTbl globalTbl queryClassId instanceId begin end_)
            (some (i : Int))).query_time_sum,
          (pointRow end_ (intervalTsOf begin end_)
            (selectedBuckets classTbl globalTbl queryClassId instanceId begin end_)
            (some (i : Int))).query_time_avg⟩) ∨
    ((∀ b ∈ selectedBuckets classTbl globalTbl queryClassId instanceId begin end_,
        pointIndex end_ (intervalTsOf begin end_) b.start_ts ≠ some (i : Int)) ∧
      sparkPoint (fillRaw (sparkLinesRows classTbl globalTbl end_ (intervalTsOf begin end_)
          queryClassId instanceId begin end_)) end_ (intervalTsOf begin end_) i =
        ⟨i, end_ - (i : Int) * intervalTsOf begin end_, 0, 0, 0⟩) := by
  have hs := intervalTsOf_nonneg begin end_ hwin
  have hb : ∀ b ∈ selectedBuckets classTbl globalTbl queryClassId instanceId begin end_,
      (b.start_ts : Int) < end_ := fun b hb =>
    (selectedBuckets_in_window classTbl globalTbl queryClassId instanceId begin end_ b hb).2
  by_cases hpres : ∃ b ∈ selectedBuckets classTbl globalTbl queryClassId instanceId begin end_,
      pointIndex end_ (intervalTsOf begin end_) b.start_ts = some (i : Int)
  · exact Or.inl ⟨hpres, sparkPoint_groupByPoint_present _ _ _ i hs hb hpres⟩
  · have habs : ∀ b ∈ selectedBuckets classTbl globalTbl queryClassId instanceId begin end_,
        pointIndex end_ (intervalTsOf begin end_) b.start_ts ≠ some (i : Int) :=
      fun b hbm h => hpres ⟨b, hbm, h⟩
    exact Or.inr ⟨habs, sparkPoint_groupByPoint_absent _ _ _ i hs hb habs⟩

theorem sparkPoint_sparkLinesRows_Point (classTbl : List (ClassMetric F))
    (globalTbl : List (GlobalMetric F)) (queryClassId instanceId : Nat) (begin end_ : Time)
    (hwin : begin < end_) (i : Nat) :
    (sparkPoint (fillRaw (sparkLinesRows classTbl globalTbl end_ (intervalTsOf begin end_)
      queryClassId instanceId begin end_)) end_ (intervalTsOf begin end_) i).Point = i := by
  rcases sparkPoint_sparkLinesRows classTbl globalTbl queryClassId instanceId begin end_ hwin i
    with ⟨_, h⟩ | ⟨_, h⟩ <;> rw [h]

/-- C1: for a window with `begin < end_`, any target and the store response of
the spark-line statement, `SparklineData` returns 60 points, the `i`-th of
which has `Point = i`; the indices are strictly ascending without duplicates. -/
theorem SparklineData_sixty_points (qr : Reporter F) (classTbl : List (ClassMetric F))
    (globalTbl : List (GlobalMetric F)) (queryClassId instanceId : Nat) (begin end_ : Time)
    (hwin : begin < end_)
    (hstore : qr.dbm.QuerySpark
      (sparkStatement end_ (intervalTsOf begin end_) queryClassId instanceId begin end_).1
      (sparkStatement end_ (intervalTsOf begin end_) queryClassId instanceId begin end_).2 =
      .ok (sparkLinesRows classTbl globalTbl end_ (intervalTsOf begin end_) queryClassId
        instanceId begin end_)) :
    ∃ out, SparklineData qr end_ (intervalTsOf begin end_) queryClassId instanceId begin end_ =
        some out ∧
      out.length = 60 ∧
      (∀ i, i < 60 → out[i]?.map (fun ql => ql.Point) = some i) ∧
      (out.map (fun ql => ql.Point)).Sorted (fun a b => a < b) ∧
      (out.map (fun ql => ql.Point)).Nodup := by
  refine ⟨_, SparklineData_of_rows qr _ _ _ _ _ _ _ hstore, ?_⟩
  have hmap : ((List.range amountOfPoints).map (sparkPoint (fillRaw (sparkLinesRows classTbl
      globalTbl end_ (intervalTsOf begin end_) queryClassId instanceId begin end_)) end_
      (intervalTsOf begin end_))).map (fun ql => ql.Point) = List.range 60 := by
    rw [List.map_map]
    have : ∀ i ∈ List.range amountOfPoints,
        ((fun ql : QueryLog F => ql.Point) ∘ sparkPoint (fillRaw (sparkLinesRows classTbl
          globalTbl end_ (intervalTsOf begin end_) queryClassId instanceId begin end_)) end_
          (intervalTsOf begin end_)) i = id i := fun i _ =>
      sparkPoint_sparkLinesRows_Point classTbl globalTbl queryClassId instanceId begin end_ hwin i
    rw [List.map_congr_left this, List.map_id]
    rfl
  refine ⟨by simp [amountOfPoints], ?_, ?_, ?_⟩
  · intro i hi
    rw [← List.getElem?_map, hmap, List.getElem?_range hi]
  · rw [hmap]
    exact List.sorted_lt_range 60
  · rw [hmap]
    exact List.nodup_range 60

/-- C2: for an index `i < 60`, a row of the store response with point index
`i` is the `i`-th output point (its count, sum, avg and store-reported start
time); without such a row the `i`-th output point is the placeholder at
`end_ - i * bucketSpan` with count, sum and avg 0. -/
theorem SparklineData_row_or_placeholder (qr : Reporter F) (classTbl : List (ClassMetric F))
    (globalTbl : List (GlobalMetric F)) (queryClassId instanceId : Nat) (begin end_ : Time)
    (i : Nat) (hwin : begin < end_) (hi : i < 60)
    (hstore : qr.dbm.QuerySpark
      (sparkStatement end_ (intervalTsOf begin end_) queryClassId instanceId begin end_).1
      (sparkStatement end_ (intervalTsOf begin end_) queryClassId instanceId begin end_).2 =
      .ok (sparkLinesRows classTbl globalTbl end_ (intervalTsOf begin end_) queryClassId
        instanceId begin end_)) :
    ∃ out, SparklineData qr end_ (intervalTsOf begin end_) queryClassId instanceId begin end_ =
        some out ∧
      (∀ raw ∈ sparkLinesRows classTbl globalTbl end_ (intervalTsOf begin end_) queryClassId
          instanceId begin end_, raw.point = some (i : Int) →
        ∃ ts, raw.start_ts = some ts ∧
          out[i]? = some ⟨i, ts, raw.query_count, raw.query_time_sum, raw.query_time_avg⟩) ∧
      ((∀ raw ∈ sparkLinesRows classTbl globalTbl end_ (intervalTsOf begin end_) queryClassId
          instanceId begin end_, raw.point ≠ some (i : Int)) →
        out[i]? = some ⟨i, end_ - (i : Int) * intervalTsOf begin end_, 0, 0, 0⟩) := by
  refine ⟨_, SparklineData_of_rows qr _ _ _ _ _ _ _ hstore, ?_, ?_⟩
  · intro raw hraw hpt
    obtain ⟨b, hbm, rfl⟩ := (mem_groupByPoint _ _ _ raw).1 hraw
    have hpt2 : pointIndex end_ (intervalTsOf begin end_) b.start_ts = some (i : Int) := hpt
    refine ⟨end_ - (i : Int) * intervalTsOf begin end_, ?_, ?_⟩
    · rw [hpt2]
      rfl
    · rw [List.getElem?_map, List.getElem?_range (by simpa [amountOfPoints] using hi)]
      rcases sparkPoint_sparkLinesRows classTbl globalTbl queryClassId instanceId begin end_
        hwin i with ⟨_, h⟩ | ⟨habs, _⟩
      · rw [hpt2]
        simp only [Option.map_some', h]
      · exact absurd hpt2 (habs b hbm)
  · intro hnone
    rw [List.getElem?_map, List.getElem?_range (by simpa [amountOfPoints] using hi)]
    rcases sparkPoint_sparkLinesRows classTbl globalTbl queryClassId instanceId begin end_
      hwin i with ⟨⟨b, hbm, hpt⟩, _⟩ | ⟨_, h⟩
    · exact absurd rfl (hnone (pointRow end_ (intervalTsOf begin end_) _ (some (i : Int)))
        ((mem_groupByPoint _ _ _ _).2 ⟨b, hbm, by rw [hpt]⟩))
    · simp only [Option.map_some', h]

end SeriesThms

/-! ## Concrete runs of SparklineData -/

section SeriesRuns

theorem scenario_class_statement :
    scenarioDB.QuerySpark (sparkStatement 7140 (intervalTsOf 3600 7140) 1 1 3600 7140).1
      (sparkStatement 7140 (intervalTsOf 3600 7140) 1 1 3600 7140).2 =
    .ok (sparkLinesRows scenarioClassTbl scenarioGlobalTbl 7140 (intervalTsOf 3600 7140) 1 1
      3600 7140) := rfl

theorem SparklineData_sixty_points_witness :
    (3600 : Time) < 7140 ∧
    ∃ out, SparklineData (⟨scenarioDB⟩ : Reporter ℚ) 7140 (intervalTsOf 3600 7140) 1 1 3600 7140 =
        some out ∧
      out.length = 60 ∧
      (∀ i, i < 60 → out[i]?.map (fun ql => ql.Point) = some i) ∧
      (out.map (fun ql => ql.Point)).Sorted (fun a b => a < b) ∧
      (out.map (fun ql => ql.Point)).Nodup :=
  ⟨by decide, SparklineData_sixty_points ⟨scenarioDB⟩ scenarioClassTbl scenarioGlobalTbl 1 1 3600
    7140 (by decide) scenario_class_statement⟩

theorem SparklineData_row_or_placeholder_witness :
    (59 : Nat) < 60 ∧ (3600 : Time) < 7140 ∧
    ∃ out, SparklineData (⟨scenarioDB⟩ : Reporter ℚ) 7140 (intervalTsOf 3600 7140) 1 1 3600 7140 =
        some out ∧
      (∀ raw ∈ sparkLinesRows scenarioClassTbl scenarioGlobalTbl 7140 (intervalTsOf 3600 7140) 1 1
          3600 7140, raw.point = some ((59 : Nat) : Int) →
        ∃ ts, raw.start_ts = some ts ∧
          out[59]? = some ⟨59, ts, raw.query_count, raw.query_time_sum, raw.query_time_avg⟩) ∧
      ((∀ raw ∈ sparkLinesRows scenarioClassTbl scenarioGlobalTbl 7140 (intervalTsOf 3600 7140) 1 1
          3600 7140, raw.point ≠ some ((59 : Nat) : Int)) →
        out[59]? = some ⟨59, 7140 - ((59 : Nat) : Int) * intervalTsOf 3600 7140, 0, 0, 0⟩) :=
  ⟨by decide, by decide, SparklineData_row_or_placeholder ⟨scenarioDB⟩ scenarioClassTbl
    scenarioGlobalTbl 1 1 3600 7140 59 (by decide) (by decide) scenario_class_statement⟩

/-- In the scenario the bucket of class 1 at 3600 (count 10) is the point 59
of its series and the point 0 is a placeholder. -/
theorem scenario_series_points :
    (SparklineData (⟨scenarioDB⟩ : Reporter ℚ) 7140 (intervalTsOf 3600 7140) 1 1 3600 7140).map
      (fun out => (out.map (fun ql => (ql.Point, ql.Start_ts, ql.Query_count))).take 2 ++
        (out.map (fun ql => (ql.Point, ql.Start_ts, ql.Query_count))).drop 58) =
    some [(0, 7140, 0), (1, 7080, 0), (58, 3660, 0), (59, 3600, 10)] := by
  decide

end SeriesRuns

/-! ## The interval of a point index -/

section IntervalThms

/-- C9, as stated, fails: with span 60 and end 3600 the bucket that starts at
3540 lies in `[3600 - 60, 3600)` and has point index 1, not 0. -/
theorem pointIndex_interval_counterexample :
    ¬ ∀ (bucketSpan endTs : Int) (b i : Nat), 0 < bucketSpan →
      (pointIndex endTs bucketSpan b = some (i : Int) ↔
        endTs - ((i : Int) + 1) * bucketSpan ≤ (b : Int) ∧
          (b : Int) < endTs - (i : Int) * bucketSpan) := by
  intro h
  have h1 : pointIndex 3600 60 3540 = some ((0 : Nat) : Int) :=
    (h 60 3600 3540 0 (by decide)).2 ⟨by decide, by decide⟩
  revert h1
  decide

/-- C9, amended: for a positive span and a bucket start `b ≤ endTs`, the point
index is `i` exactly when `b` lies in `(endTs - (i+1)*span, endTs - i*span]`;
point 0 covers `(endTs - span, endTs]` and the points 0..59 together cover
exactly `(endTs - 60*span, endTs]`. -/
theorem pointIndex_interval (bucketSpan endTs : Int) (b : Nat) (hs : 0 < bucketSpan)
    (hb : (b : Int) ≤ endTs) :
    (∀ i : Nat, pointIndex endTs bucketSpan b = some (i : Int) ↔
      endTs - ((i : Int) + 1) * bucketSpan < (b : Int) ∧
        (b : Int) ≤ endTs - (i : Int) * bucketSpan) ∧
    (pointIndex endTs bucketSpan b = some 0 ↔ endTs - bucketSpan < (b : Int) ∧ (b : Int) ≤ endTs) ∧
    ((∃ i : Nat, i < 60 ∧ pointIndex endTs bucketSpan b = some (i : Int)) ↔
      endTs - 60 * bucketSpan < (b : Int) ∧ (b : Int) ≤ endTs) := by
  refine ⟨fun i => pointIndex_eq_iff endTs bucketSpan b i hs hb, ?_, ?_⟩
  · have := pointIndex_eq_iff endTs bucketSpan b 0 hs hb
    simpa using this
  · constructor
    · rintro ⟨i, hi, hpt⟩
      obtain ⟨h1, _⟩ := (pointIndex_eq_iff endTs bucketSpan b i hs hb).1 hpt
      have hi2 : ((i : Int) + 1) ≤ 60 := by omega
      have hmul : ((i : Int) + 1) * bucketSpan ≤ 60 * bucketSpan :=
        Int.mul_le_mul_of_nonneg_right hi2 (le_of_lt hs)
      exact ⟨by linarith, hb⟩
    · rintro ⟨h1, _⟩
      have hk0 : 0 ≤ (endTs - (b : Int)) / bucketSpan :=
        Int.ediv_nonneg (by omega) (le_of_lt hs)
      have hk60 : (endTs - (b : Int)) / bucketSpan < 60 :=
        (Int.ediv_lt_iff_lt_mul hs).2 (by linarith)
      refine ⟨((endTs - (b : Int)) / bucketSpan).toNat, by omega, ?_⟩
      rw [Int.toNat_of_nonneg hk0]
      exact pointIndex_pos_span endTs bucketSpan b hs hb

theorem pointIndex_interval_witness :
    (0 : Int) < 60 ∧ ((3540 : Nat) : Int) ≤ 3600 ∧
    (∀ i : Nat, pointIndex 3600 60 3540 = some (i : Int) ↔
      3600 - ((i : Int) + 1) * 60 < ((3540 : Nat) : Int) ∧
        ((3540 : Nat) : Int) ≤ 3600 - (i : Int) * 60) ∧
    (pointIndex 3600 60 3540 = some 0 ↔
      3600 - 60 < ((3540 : Nat) : Int) ∧ ((3540 : Nat) : Int) ≤ 3600) ∧
    ((∃ i : Nat, i < 60 ∧ pointIndex 3600 60 3540 = some (i : Int)) ↔
      3600 - 60 * 60 < ((3540 : Nat) : Int) ∧ ((3540 : Nat) : Int) ≤ 3600) :=
  ⟨by decide, by decide, pointIndex_interval 60 3600 3540 (by decide) (by decide)⟩

/-- The bucket that starts with a window of `d ≥ 59` seconds gets a point
index of at most 59 exactly when `d % 59 < d / 59`. -/
theorem pointIndex_window_start (begin : Nat) (end_ : Int) (hd : 59 ≤ end_ - (begin : Int)) :
    ∃ k : Int, pointIndex end_ (intervalTsOf (begin : Int) end_) begin = some k ∧
      (k ≤ 59 ↔ (end_ - (begin : Int)) % 59 < (end_ - (begin : Int)) / 59) := by
  have hq : intervalTsOf (begin : Int) end_ = (end_ - (begin : Int)) / 59 := by
    unfold intervalTsOf
    rw [Int.tdiv_eq_ediv (by omega) (by simp [amountOfPoints])]
    rfl
  have hqpos : 0 < (end_ - (begin : Int)) / 59 := by omega
  refine ⟨(end_ - (begin : Int)) / ((end_ - (begin : Int)) / 59), ?_, ?_⟩
  · rw [hq]
    exact pointIndex_pos_span end_ _ begin hqpos (by omega)
  · have hsplit := Int.emod_add_ediv (end_ - (begin : Int)) 59
    constructor
    · intro hk
      have h1 : (end_ - (begin : Int)) / ((end_ - (begin : Int)) / 59) < 60 := by omega
      have h2 := (Int.ediv_lt_iff_lt_mul hqpos).1 h1
      omega
    · intro hr
      have h2 : end_ - (begin : Int) < 60 * ((end_ - (begin : Int)) / 59) := by omega
      have h1 : (end_ - (begin : Int)) / ((end_ - (begin : Int)) / 59) < 60 :=
        (Int.ediv_lt_iff_lt_mul hqpos).2 h2
      omega

/-- C10 at the window `[1000, 1300)`: the window is longer than 59 seconds, the
span is 5, the bucket that starts with the window has point index 60, and the
60 returned points count 0 queries although the class has 5 in the window. -/
theorem SparklineData_drops_window_start :
    (59 : Int) ≤ 1300 - 1000 ∧
    intervalTsOf 1000 1300 = 5 ∧
    (whereClass fiveMinuteTbl 1 1 1000 1300).map (fun b => b.start_ts) = [1000] ∧
    pointIndex 1300 (intervalTsOf 1000 1300) 1000 = some 60 ∧
    ((whereClass fiveMinuteTbl 1 1 1000 1300).map (fun b => b.count)).sum = 5 ∧
    (SparklineData (⟨fiveMinuteDB⟩ : Reporter ℚ) 1300 (intervalTsOf 1000 1300) 1 1 1000 1300).map
      (fun out => (out.length, (out.map (fun ql => ql.Query_count)).sum)) = some (60, 0) := by
  decide

end IntervalThms

/-! ## The statistic expressions -/

section StatsThms

theorem fillStats_some (f : String → String) (names : List String) (i : Nat) (stats : List String)
    (h : (names.filter (fun n => n ≠ "p5")).length + i ≤ stats.length) :
    ∃ out, fillStats f names i stats = some out ∧ out.length = stats.length := by
  induction names generalizing i stats with
  | nil => exact ⟨stats, rfl, rfl⟩
  | cons stat names ih =>
    by_cases hp : stat = "p5"
    · have h2 : (names.filter (fun n => n ≠ "p5")).length + i ≤ stats.length := by
        simpa [List.filter_cons, hp] using h
      obtain ⟨out, ho, hl⟩ := ih i stats h2
      exact ⟨out, by simp [fillStats, hp, ho], hl⟩
    · have h2 : (names.filter (fun n => n ≠ "p5")).length + 1 + i ≤ stats.length := by
        simpa [List.filter_cons, hp] using h
      have hi : i < stats.length := by omega
      obtain ⟨out, ho, hl⟩ := ih (i + 1) (stats.set i (f stat))
        (by rw [List.length_set]; omega)
      exact ⟨out, by simp [fillStats, hp, hi, ho], by rw [hl, List.length_set]⟩

theorem filter_p5_length (m : Metrics) :
    (m.StatNames.filter (fun n => n ≠ "p5")).length + 1 ≤ m.StatNames.length := by
  have : (m.StatNames.filter (fun n => n ≠ "p5")).length < m.StatNames.length :=
    List.length_filter_lt_length_iff_exists.2 ⟨"p5", m.p5_mem, by simp⟩
  omega

/-- The first `stats` of `Profile` is built without a panic. -/
theorem stats_first (m : Metrics) (f : String → String) :
    ∃ stats0 stats1, makeStats m = some stats0 ∧
      fillStats f m.StatNames 0 stats0 = some stats1 ∧
      stats1.length + 1 = m.StatNames.length := by
  have hlen := filter_p5_length m
  have hne : m.StatNames.length ≠ 0 := by omega
  obtain ⟨out, ho, hl⟩ := fillStats_some f m.StatNames 0
    (List.replicate (m.StatNames.length - 1) "") (by rw [List.length_replicate]; omega)
  refine ⟨_, out, by simp [makeStats, hne], ho, ?_⟩
  rw [hl, List.length_replicate]
  omega

/-- The second fill of `stats` does not panic either. -/
theorem stats_second (m : Metrics) (g : String → String) (stats : List String)
    (h : stats.length + 1 = m.StatNames.length) :
    ∃ stats2, fillStats g m.StatNames 0 stats = some stats2 := by
  have hlen := filter_p5_length m
  obtain ⟨out, ho, _⟩ := fillStats_some g m.StatNames 0 stats (by omega)
  exact ⟨out, ho⟩

theorem firstStats_some (m : Metrics) (r : RankBy) :
    ∃ stats1, firstStats m r = some stats1 ∧ stats1.length + 1 = m.StatNames.length := by
  obtain ⟨stats0, stats1, h0, h1, h2⟩ := stats_first m
    (fun stat => m.AggregateFunction r.Metric stat "total_query_count")
  exact ⟨stats1, by simp only [firstStats, h0, h1], h2⟩

theorem firstStats_length (m : Metrics) (r : RankBy) (stats1 : List String)
    (h : firstStats m r = some stats1) : stats1.length + 1 = m.StatNames.length := by
  obtain ⟨stats, h1, h2⟩ := firstStats_some m r
  rw [h, Option.some.injEq] at h1
  rw [h1]
  exact h2

theorem secondStats_some (m : Metrics) (r : RankBy) (stats1 : List String)
    (h : firstStats m r = some stats1) : ∃ stats2, secondStats m r stats1 = some stats2 :=
  stats_second m _ stats1 (firstStats_length m r stats1 h)

theorem fillStats_length (f : String → String) (names : List String) (i : Nat)
    (stats out : List String) (h : fillStats f names i stats = some out) :
    out.length = stats.length := by
  induction names generalizing i stats with
  | nil =>
    simp only [fillStats, Option.some.injEq] at h
    rw [h]
  | cons stat names ih =>
    unfold fillStats at h
    split at h
    · exact ih i stats h
    · split at h
      · rw [ih (i + 1) _ h, List.length_set]
      · simp at h

end StatsThms

/-! ## The loops of Profile -/

section LoopThms

variable {F : Type} [Zero F] [Div F] [NatCast F]

/-- What every return of the ranked-row loop satisfies: `p.Query` keeps its
length, the entries below the first rank are untouched, and every entry is
either an old one or carries a rank, ratios and a Stat written by the loop. -/
theorem rankLoop_inv (qr : Reporter F) (endTs intervalTs : Int) (instanceId : Nat)
    (begin end_ : Time) (globalSum intervalTime : F)
    (rows : List (Except DBErr (Nat × Stats F))) (st st1 : RankLoop F) (err : Option GoError)
    (h : rankLoop qr endTs intervalTs instanceId begin end_ globalSum intervalTime rows st =
      some (st1, err)) :
    st1.Query.length = st.Query.length ∧ st.rank ≤ st1.rank ∧
    (∀ k, k < st.rank → st1.Query[k]? = st.Query[k]?) ∧
    (∀ e ∈ st1.Query, e ∈ st.Query ∨
      (st.rank ≤ e.Rank ∧ e.Percentage = e.Stats.Sum.Float64 / globalSum ∧
        e.QPS = (e.Stats.Cnt : F) / intervalTime ∧
        e.Load = e.Stats.Sum.Float64 / intervalTime)) := by
  induction rows generalizing st with
  | nil =>
    simp only [rankLoop, Option.some.injEq, Prod.mk.injEq] at h
    obtain ⟨rfl, _⟩ := h
    exact ⟨rfl, le_refl _, fun _ _ => rfl, fun e he => Or.inl he⟩
  | cons row rows ih =>
    cases row with
    | error e0 =>
      simp only [rankLoop, Option.some.injEq, Prod.mk.injEq] at h
      obtain ⟨rfl, _⟩ := h
      exact ⟨rfl, le_refl _, fun _ _ => rfl, fun e he => Or.inl he⟩
    | ok row =>
      obtain ⟨queryClassId, stats⟩ := row
      unfold rankLoop at h
      split at h
      · simp at h
      · rename_i log hlog
        split at h
        · rename_i hlt
          obtain ⟨h1, h2, h3, h4⟩ := ih _ h
          simp only [List.length_set] at h1
          refine ⟨h1, by simp only at h2; omega, ?_, ?_⟩
          · intro k hk
            rw [h3 k (by simp only; omega)]
            exact List.getElem?_set_ne (by omega)
          · intro e he
            rcases h4 e he with h5 | ⟨h5, h6⟩
            · rcases List.mem_or_eq_of_mem_set h5 with h7 | h7
              · exact Or.inl h7
              · subst h7
                exact Or.inr ⟨le_refl _, rfl, rfl, rfl⟩
            · exact Or.inr ⟨by simp only at h5; omega, h6⟩
        · simp at h

/-- The ranked-row loop on rows that all scan, with a series for each and room
in `p.Query`: it ends without error, the rank advances by one per row, and
the entry of the `j`-th row sits at index `rank + j` with that rank and the
Stat of the row. -/
theorem rankLoop_ok (qr : Reporter F) (endTs intervalTs : Int) (instanceId : Nat)
    (begin end_ : Time) (globalSum intervalTime : F) (rows : List (Nat × Stats F))
    (st : RankLoop F)
    (hspark : ∀ row ∈ rows,
      SparklineData qr endTs intervalTs row.1 instanceId begin end_ ≠ none)
    (hroom : st.rank + rows.length ≤ st.Query.length) :
    ∃ st1, rankLoop qr endTs intervalTs instanceId begin end_ globalSum intervalTime
        (rows.map Except.ok) st = some (st1, none) ∧
      st1.rank = st.rank + rows.length ∧
      st1.queryClassIds = st.queryClassIds ++ rows.map Prod.fst ∧
      (∀ q ∈ st1.query, q ∈ st.query ∨ q.2 < st.rank + rows.length) ∧
      (∀ j row, rows[j]? = some row →
        ∃ e, st1.Query[st.rank + j]? = some e ∧ e.Rank = st.rank + j ∧ e.Stats = row.2) := by
  induction rows generalizing st with
  | nil =>
    exact ⟨st, rfl, rfl, by simp, fun q hq => Or.inl hq, fun j row hj => by simp at hj⟩
  | cons row rows ih =>
    obtain ⟨queryClassId, stats⟩ := row
    have hlen : st.rank + (rows.length + 1) ≤ st.Query.length := by
      simpa [List.length_cons] using hroom
    have hlt : st.rank < st.Query.length := by omega
    obtain ⟨log, hlog⟩ := Option.ne_none_iff_exists'.1
      (hspark (queryClassId, stats) (List.mem_cons_self _ _))
    have hlog2 : SparklineData qr endTs intervalTs queryClassId instanceId begin end_ = some log :=
      hlog
    obtain ⟨st1, h1, h2, h3, h4, h5⟩ := ih
      { Query := st.Query.set st.rank
          { Rank := st.rank
            Percentage := stats.Sum.Float64 / globalSum
            Id := ""
            Abstract := ""
            Fingerprint := ""
            QPS := (stats.Cnt : F) / intervalTime
            Load := stats.Sum.Float64 / intervalTime
            Log := log
            Stats := stats }
        query := (queryClassId, st.rank) :: st.query
        queryClassIds := st.queryClassIds ++ [queryClassId]
        rank := st.rank + 1 }
      (fun row hrow => hspark row (List.mem_cons_of_mem _ hrow))
      (by simp only [List.length_set]; omega)
    refine ⟨st1, ?_, ?_, ?_, ?_, ?_⟩
    · simp only [List.map_cons, rankLoop, hlog2, hlt, if_true]
      exact h1
    · simp only [h2, List.length_cons]
      omega
    · simp only [h3, List.map_cons, List.append_assoc, List.singleton_append]
    · intro q hq
      rcases h4 q hq with h6 | h6
      · rcases List.mem_cons.1 h6 with h7 | h7
        · right
          rw [h7]
          simp only [List.length_cons]
          omega
        · exact Or.inl h7
      · right
        simp only [List.length_cons]
        simp only at h6
        omega
    · intro j row hj
      cases j with
      | zero =>
        simp only [List.getElem?_cons_zero, Option.some.injEq] at hj
        subst hj
        obtain ⟨_, _, h6, _⟩ := rankLoop_inv qr endTs intervalTs instanceId begin end_ globalSum
          intervalTime _ _ _ _ h1
        have hr : st1.Query[st.rank]? = some ⟨st.rank, stats.Sum.Float64 / globalSum, "", "", "",
            (stats.Cnt : F) / intervalTime, stats.Sum.Float64 / intervalTime, log, stats⟩ := by
          rw [h6 st.rank (by simp only; omega)]
          exact List.getElem?_set_self hlt
        exact ⟨_, by rw [Nat.add_zero]; exact hr, rfl, rfl⟩
      | succ j =>
        simp only [List.getElem?_cons_succ] at hj
        obtain ⟨e, he1, he2, he3⟩ := h5 j row hj
        refine ⟨e, ?_, ?_, he3⟩
        · rw [← he1]
          congr 1
          simp only
          omega
        · rw [he2]
          simp only
          omega

end LoopThms

section ClassesThms

variable {F : Type}

theorem figures_set_meta (e : QueryRank F) (a b c : String) :
    ({ e with Id := a, Abstract := b, Fingerprint := c } : QueryRank F).figures = e.figures := rfl

/-- The metadata loop changes nothing but the display metadata. -/
theorem classesLoop_inv (query : List (Nat × Nat))
    (crows : List (Except DBErr (Nat × String × String × String))) (Q Q1 : List (QueryRank F))
    (err : Option GoError) (h : classesLoop query crows Q = some (Q1, err)) :
    Q1.map QueryRank.figures = Q.map QueryRank.figures := by
  induction crows generalizing Q with
  | nil =>
    simp only [classesLoop, Option.some.injEq, Prod.mk.injEq] at h
    rw [h.1]
  | cons crow crows ih =>
    cases crow with
    | error e0 =>
      simp only [classesLoop, Option.some.injEq, Prod.mk.injEq] at h
      rw [h.1]
    | ok crow =>
      obtain ⟨queryClassId, checksum, abstract, fingerprint⟩ := crow
      unfold classesLoop at h
      simp only at h
      split at h
      · simp at h
      · rename_i e he
        rw [ih _ h, List.map_set, figures_set_meta]
        apply List.ext_getElem?
        intro n
        by_cases hn : (query.lookup queryClassId).getD 0 = n
        · subst hn
          rw [List.getElem?_set_self (by
            rw [List.length_map]
            exact (List.getElem?_eq_some.1 he).1), List.getElem?_map, he]
          rfl
        · rw [List.getElem?_set_ne hn]

/-- The metadata loop does not panic when the ranks of the map index `p.Query`. -/
theorem classesLoop_some (query : List (Nat × Nat))
    (crows : List (Except DBErr (Nat × String × String × String))) (Q : List (QueryRank F))
    (hq : ∀ q ∈ query, q.2 < Q.length) (h0 : 0 < Q.length) :
    ∃ Q1 err, classesLoop query crows Q = some (Q1, err) := by
  induction crows generalizing Q with
  | nil => exact ⟨Q, none, rfl⟩
  | cons crow crows ih =>
    cases crow with
    | error e0 => exact ⟨Q, _, rfl⟩
    | ok crow =>
      obtain ⟨queryClassId, checksum, abstract, fingerprint⟩ := crow
      have hrank : (query.lookup queryClassId).getD 0 < Q.length := by
        cases hl : query.lookup queryClassId with
        | none => simpa using h0
        | some v => simpa using hq _ (mem_of_lookup_eq_some query queryClassId v hl)
      obtain ⟨Q1, err, h1⟩ := ih
        (Q.set ((query.lookup queryClassId).getD 0)
          { Q[(query.lookup queryClassId).getD 0] with
            Id := checksum, Abstract := abstract, Fingerprint := fingerprint })
        (by simpa [List.length_set] using hq) (by simpa [List.length_set] using h0)
      refine ⟨Q1, err, ?_⟩
      unfold classesLoop
      simp only [List.getElem?_eq_getElem hrank]
      exact h1

end ClassesThms

/-! ## The returns of Profile -/

section EntriesThms

variable {F : Type} [Div F] [NatCast F]

/-- Entries that agree up to the display metadata share the global entry at
the head and the ratios of the ranked entries. -/
theorem entries_transfer (Q Q1 : List (QueryRank F)) (g : QueryRank F) (globalSum intervalTime : F)
    (hmap : Q1.map QueryRank.figures = Q.map QueryRank.figures)
    (hhead : Q.head?.map QueryRank.figures = some g)
    (hall : ∀ e ∈ Q, 1 ≤ e.Rank → e.Percentage = e.Stats.Sum.Float64 / globalSum ∧
      e.QPS = (e.Stats.Cnt : F) / intervalTime ∧ e.Load = e.Stats.Sum.Float64 / intervalTime) :
    Q1.head?.map QueryRank.figures = some g ∧
    (∀ e ∈ Q1, 1 ≤ e.Rank → e.Percentage = e.Stats.Sum.Float64 / globalSum ∧
      e.QPS = (e.Stats.Cnt : F) / intervalTime ∧ e.Load = e.Stats.Sum.Float64 / intervalTime) := by
  constructor
  · rw [← List.head?_map, hmap, List.head?_map, hhead]
  · intro e he hrank
    have hmem : e.figures ∈ Q.map QueryRank.figures := by
      rw [← hmap]
      exact List.mem_map_of_mem _ he
    obtain ⟨e1, he1, hfig⟩ := List.mem_map.1 hmem
    have hR : e1.Rank = e.Rank :=
      (congrArg QueryRank.Rank hfig : e1.figures.Rank = e.figures.Rank)
    have hP : e1.Percentage = e.Percentage :=
      (congrArg QueryRank.Percentage hfig : e1.figures.Percentage = e.figures.Percentage)
    have hQ : e1.QPS = e.QPS :=
      (congrArg QueryRank.QPS hfig : e1.figures.QPS = e.figures.QPS)
    have hL : e1.Load = e.Load :=
      (congrArg QueryRank.Load hfig : e1.figures.Load = e.figures.Load)
    have hS : e1.Stats = e.Stats :=
      (congrArg QueryRank.Stats hfig : e1.figures.Stats = e.figures.Stats)
    have := hall e1 he1 (by omega)
    rw [hP, hQ, hL, hS] at this
    exact this

end EntriesThms

section MadeThms

variable {F : Type} [Zero F]

/-- The slice `p.Query` that `Profile` makes: the global entry at index 0 and
zero values after it. -/
theorem made_Query (limit : Nat) (g : QueryRank F) (hg : g.Rank = 0) :
    ((List.replicate (limit + 1) (zeroQueryRank : QueryRank F)).set 0 g).head? = some g ∧
    (∀ e ∈ (List.replicate (limit + 1) (zeroQueryRank : QueryRank F)).set 0 g, e.Rank = 0) ∧
    ((List.replicate (limit + 1) (zeroQueryRank : QueryRank F)).set 0 g).length = limit + 1 := by
  refine ⟨by simp [List.replicate_succ], ?_, by simp⟩
  intro e he
  rcases List.mem_or_eq_of_mem_set he with h | h
  · rw [List.eq_of_mem_replicate h]
    rfl
  · rw [h, hg]

end MadeThms

section DurationThms

variable {F : Type} [Add F] [Div F] [NatCast F] [IntCast F]

/-- The seconds of a window whose length fits a `time.Duration`: the exact
difference, given that adding the zero fraction `float64(0)/1e9` to a
converted integer leaves it as it is (`hsec`). -/
theorem Seconds_Sub_of_fits
    (hsec : ∀ n : Int, (n : F) + ((0 : Int) : F) / ((1000000000 : Nat) : F) = (n : F))
    (begin end_ : Int) (hlo : -9223372036 ≤ end_ - begin) (hhi : end_ - begin ≤ 9223372036) :
    (Duration.Seconds (Time.Sub end_ begin) : F) = ((end_ - begin : Int) : F) := by
  have h1 : (-9223372036854775808 : Int) ≤ (end_ - begin) * 1000000000 := by omega
  have h2 : (end_ - begin) * 1000000000 ≤ (9223372036854775807 : Int) := by omega
  have hfit : minDuration ≤ (end_ - begin) * 1000000000 ∧
      (end_ - begin) * 1000000000 ≤ maxDuration := ⟨h1, h2⟩
  have hsub : Time.Sub end_ begin = (end_ - begin) * 1000000000 := by
    unfold Time.Sub
    simp only
    rw [if_pos hfit]
  unfold Duration.Seconds
  rw [hsub, Int.mul_tdiv_cancel _ (by decide), Int.mul_tmod_left]
  exact hsec _

end DurationThms

section ProfileThms

variable {F : Type} [Zero F] [One F] [Add F] [Div F] [NatCast F] [IntCast F]

/-- Every return of the part of `Profile` after the short-circuit: the series
of the global entry was computed, `p.Query` starts with the global entry, the
ranked entries carry the ratios against the global sum and the window length,
and no other field of `p` changed. -/
theorem profileRanked_spec (m : Metrics) (qr : Reporter F) (instanceId : Nat) (begin end_ : Time)
    (r : RankBy) (offset : Int) (searchIn : String) (stats : List String) (s : Stats F)
    (p1 p : Profile F) (err : Option GoError)
    (h : profileRanked m qr instanceId begin end_ r offset searchIn stats s p1 = some (p, err)) :
    ∃ log0, SparklineData qr end_ (intervalTsOf begin end_) 0 instanceId begin end_ = some log0 ∧
      p.Query.head?.map QueryRank.figures =
        some (globalEntry s (Duration.Seconds (Time.Sub end_ begin) : F) log0) ∧
      (∀ e ∈ p.Query, 1 ≤ e.Rank →
        e.Percentage = e.Stats.Sum.Float64 / s.Sum.Float64 ∧
        e.QPS = (e.Stats.Cnt : F) / (Duration.Seconds (Time.Sub end_ begin) : F) ∧
        e.Load = e.Stats.Sum.Float64 / (Duration.Seconds (Time.Sub end_ begin) : F)) ∧
      p = { p1 with Query := p.Query } := by
  unfold profileRanked at h
  simp only at h
  split at h
  · simp at h
  · rename_i log0 hlog0
    refine ⟨log0, hlog0, ?_⟩
    obtain ⟨hm1, hm2, hm3⟩ := made_Query r.Limit
      (globalEntry s (Duration.Seconds (Time.Sub end_ begin) : F) log0) rfl
    have base : ((List.replicate (r.Limit + 1) (zeroQueryRank : QueryRank F)).set 0
          (globalEntry s (Duration.Seconds (Time.Sub end_ begin) : F) log0)).head?.map QueryRank.figures =
          some (globalEntry s (Duration.Seconds (Time.Sub end_ begin) : F) log0) ∧
        (∀ e ∈ (List.replicate (r.Limit + 1) (zeroQueryRank : QueryRank F)).set 0
          (globalEntry s (Duration.Seconds (Time.Sub end_ begin) : F) log0), 1 ≤ e.Rank →
          e.Percentage = e.Stats.Sum.Float64 / s.Sum.Float64 ∧
          e.QPS = (e.Stats.Cnt : F) / (Duration.Seconds (Time.Sub end_ begin) : F) ∧
          e.Load = e.Stats.Sum.Float64 / (Duration.Seconds (Time.Sub end_ begin) : F)) := by
      refine ⟨by rw [hm1]; rfl, fun e he hr => ?_⟩
      have := hm2 e he
      omega
    have loopspec : ∀ (rows : List (Except DBErr (Nat × Stats F))) (st : RankLoop F)
        (e1 : Option GoError),
        rankLoop qr end_ (intervalTsOf begin end_) instanceId begin end_ s.Sum.Float64
          (Duration.Seconds (Time.Sub end_ begin) : F) rows
          { Query := (List.replicate (r.Limit + 1) (zeroQueryRank : QueryRank F)).set 0
              (globalEntry s (Duration.Seconds (Time.Sub end_ begin) : F) log0)
            query := [], queryClassIds := [], rank := 1 } = some (st, e1) →
        1 ≤ st.rank ∧
        st.Query.head?.map QueryRank.figures =
          some (globalEntry s (Duration.Seconds (Time.Sub end_ begin) : F) log0) ∧
        (∀ e ∈ st.Query, 1 ≤ e.Rank →
          e.Percentage = e.Stats.Sum.Float64 / s.Sum.Float64 ∧
          e.QPS = (e.Stats.Cnt : F) / (Duration.Seconds (Time.Sub end_ begin) : F) ∧
          e.Load = e.Stats.Sum.Float64 / (Duration.Seconds (Time.Sub end_ begin) : F)) := by
      intro rows st e1 hl
      obtain ⟨_, h2, h3, h4⟩ := rankLoop_inv _ _ _ _ _ _ _ _ _ _ _ _ hl
      refine ⟨h2, ?_, ?_⟩
      · rw [List.head?_eq_getElem?, h3 0 (by simp only; omega), ← List.head?_eq_getElem?]
        exact base.1
      · intro e he hr
        rcases h4 e he with h5 | ⟨_, h6⟩
        · exact base.2 e h5 hr
        · exact h6
    split at h
    · simp at h
    · rename_i stats2 hstats2
      split at h
      · simp only [Option.some.injEq, Prod.mk.injEq] at h
        obtain ⟨rfl, _⟩ := h
        exact ⟨base.1, base.2, rfl⟩
      · rename_i rows hrows
        split at h
        · simp at h
        · rename_i st e1 hloop
          simp only [Option.some.injEq, Prod.mk.injEq] at h
          obtain ⟨rfl, _⟩ := h
          obtain ⟨_, h2, h3⟩ := loopspec rows st (some e1) hloop
          exact ⟨h2, h3, rfl⟩
        · rename_i st hloop
          obtain ⟨h1, h2, h3⟩ := loopspec rows st none hloop
          have htake : (st.Query.take st.rank).head?.map QueryRank.figures =
                some (globalEntry s (Duration.Seconds (Time.Sub end_ begin) : F) log0) ∧
              (∀ e ∈ st.Query.take st.rank, 1 ≤ e.Rank →
                e.Percentage = e.Stats.Sum.Float64 / s.Sum.Float64 ∧
                e.QPS = (e.Stats.Cnt : F) / (Duration.Seconds (Time.Sub end_ begin) : F) ∧
                e.Load = e.Stats.Sum.Float64 / (Duration.Seconds (Time.Sub end_ begin) : F)) := by
            refine ⟨?_, fun e he hr => h3 e (List.mem_of_mem_take he) hr⟩
            rw [List.head?_take, if_neg (by omega)]
            exact h2
          split at h
          · simp only [Option.some.injEq, Prod.mk.injEq] at h
            obtain ⟨rfl, _⟩ := h
            exact ⟨h2, h3, rfl⟩
          · split at h
            · simp only [Option.some.injEq, Prod.mk.injEq] at h
              obtain ⟨rfl, _⟩ := h
              exact ⟨htake.1, htake.2, rfl⟩
            · rename_i crows hcrows
              split at h
              · simp at h
              · rename_i Q e2 hcl
                simp only [Option.some.injEq, Prod.mk.injEq] at h
                obtain ⟨rfl, _⟩ := h
                have hfig := classesLoop_inv _ _ _ _ _ hcl
                obtain ⟨t1, t2⟩ := entries_transfer _ Q _ _ _ hfig htake.1 htake.2
                exact ⟨t1, t2, rfl⟩

/-- Every return of the part of `Profile` from the first `stats` on. -/
theorem profileAggregate_spec (m : Metrics) (qr : Reporter F) (instanceId : Nat)
    (begin end_ : Time) (r : RankBy) (offset : Int) (searchIn : String) (p0 p : Profile F)
    (err : Option GoError)
    (h : profileAggregate m qr instanceId begin end_ r offset searchIn p0 = some (p, err)) :
    ∃ stats1, firstStats m r = some stats1 ∧
      ((p = p0 ∧ err ≠ none) ∨
        ∃ c, qr.dbm.QueryRowCount (countUniqueQuery searchIn)
            [Arg.uint instanceId, Arg.time begin, Arg.time end_] = .ok c ∧
          ((p = { p0 with TotalQueries := c } ∧ err ≠ none) ∨
            ∃ tt s, qr.dbm.QueryRowGlobal (globalQuery stats1)
                [Arg.uint instanceId, Arg.time begin, Arg.time end_] = .ok (tt, s) ∧
              ((tt = 0 ∧ p = { p0 with TotalQueries := c, TotalTime := 0 } ∧ err = none) ∨
                (tt ≠ 0 ∧ profileRanked m qr instanceId begin end_ r offset searchIn stats1 s
                  { p0 with TotalQueries := c, TotalTime := tt } = some (p, err))))) := by
  unfold profileAggregate at h
  split at h
  · simp at h
  · rename_i stats1 hstats1
    refine ⟨stats1, hstats1, ?_⟩
    split at h
    · simp only [Option.some.injEq, Prod.mk.injEq] at h
      obtain ⟨rfl, rfl⟩ := h
      exact Or.inl ⟨rfl, by simp⟩
    · rename_i c hc
      refine Or.inr ⟨c, hc, ?_⟩
      simp only at h
      split at h
      · simp only [Option.some.injEq, Prod.mk.injEq] at h
        obtain ⟨rfl, rfl⟩ := h
        exact Or.inl ⟨rfl, by simp⟩
      · rename_i tt s hg
        refine Or.inr ⟨tt, s, hg, ?_⟩
        split at h
        · rename_i h0
          simp only [Option.some.injEq, Prod.mk.injEq] at h
          obtain ⟨rfl, rfl⟩ := h
          have h00 : tt = 0 := h0
          subst h00
          exact Or.inl ⟨rfl, rfl, rfl⟩
        · rename_i h0
          exact Or.inr ⟨h0, h⟩

/-- Every return of `Profile`: the "no match" return, or a return of the
aggregation started with the clause of the filtered ids. -/
theorem Profile_spec (m : Metrics) (qr : Reporter F) (instanceId : Nat) (begin end_ : Time)
    (r : RankBy) (offset : Int) (search : String) (p : Profile F) (err : Option GoError)
    (h : qr.Profile m instanceId begin end_ r offset search = some (p, err)) :
    (search ≠ "" ∧ (qr.filterIds instanceId begin end_ search).length = 0 ∧
      p = ⟨"", begin, end_, 0, 0, r, []⟩ ∧
      err = some (.mysqlError none
        "None of the queries, in selected time range, do not contain this substring.")) ∨
    (¬ (search ≠ "" ∧ (qr.filterIds instanceId begin end_ search).length = 0) ∧
      profileAggregate m qr instanceId begin end_ r offset
        (searchInClause search (qr.filterIds instanceId begin end_ search))
        ⟨"", begin, end_, 0, 0, r, []⟩ = some (p, err)) := by
  unfold Reporter.Profile at h
  simp only at h
  split at h
  · rename_i hc
    simp only [Option.some.injEq, Prod.mk.injEq] at h
    obtain ⟨rfl, rfl⟩ := h
    exact Or.inl ⟨hc.1, hc.2, rfl, rfl⟩
  · rename_i hc
    exact Or.inr ⟨hc, h⟩

/-- Every return of `Profile` with entries got past the short-circuit: the
global row was read with a non-zero total time, `p.Query` starts with the
global entry, and the ranked entries carry the ratios against the global sum
and the window length. -/
theorem Profile_entries_spec (m : Metrics) (qr : Reporter F) (instanceId : Nat)
    (begin end_ : Time) (r : RankBy) (offset : Int) (search : String) (p : Profile F)
    (err : Option GoError)
    (h : qr.Profile m instanceId begin end_ r offset search = some (p, err))
    (hne : p.Query ≠ []) :
    ∃ stats1 s log0, firstStats m r = some stats1 ∧
      qr.dbm.QueryRowGlobal (globalQuery stats1)
        [Arg.uint instanceId, Arg.time begin, Arg.time end_] = .ok (p.TotalTime, s) ∧
      p.TotalTime ≠ 0 ∧
      SparklineData qr end_ (intervalTsOf begin end_) 0 instanceId begin end_ = some log0 ∧
      p.Query.head?.map QueryRank.figures =
        some (globalEntry s (Duration.Seconds (Time.Sub end_ begin) : F) log0) ∧
      (∀ e ∈ p.Query, 1 ≤ e.Rank →
        e.Percentage = e.Stats.Sum.Float64 / s.Sum.Float64 ∧
        e.QPS = (e.Stats.Cnt : F) / (Duration.Seconds (Time.Sub end_ begin) : F) ∧
        e.Load = e.Stats.Sum.Float64 / (Duration.Seconds (Time.Sub end_ begin) : F)) := by
  rcases Profile_spec m qr instanceId begin end_ r offset search p err h with
    ⟨_, _, rfl, _⟩ | ⟨_, hagg⟩
  · exact absurd rfl hne
  · obtain ⟨stats1, hs1, hcases⟩ := profileAggregate_spec _ _ _ _ _ _ _ _ _ _ _ hagg
    rcases hcases with ⟨rfl, _⟩ | ⟨c, _, hcases⟩
    · exact absurd rfl hne
    · rcases hcases with ⟨rfl, _⟩ | ⟨tt, s, hg, hcases⟩
      · exact absurd rfl hne
      · rcases hcases with ⟨_, rfl, _⟩ | ⟨htt, hr⟩
        · exact absurd rfl hne
        · obtain ⟨log0, hl0, hhead, hall, hp⟩ := profileRanked_spec _ _ _ _ _ _ _ _ _ _ _ _ _ hr
          have hTT : p.TotalTime = tt := by rw [hp]
          refine ⟨stats1, s, log0, hs1, ?_, ?_, hl0, hhead, hall⟩
          · rw [hTT]
            exact hg
          · rw [hTT]
            exact htt

/-- Every return of `Profile` without error and without entries is the
short-circuit on a global row whose total time is 0. -/
theorem Profile_empty_spec (m : Metrics) (qr : Reporter F) (instanceId : Nat)
    (begin end_ : Time) (r : RankBy) (offset : Int) (search : String) (p : Profile F)
    (h : qr.Profile m instanceId begin end_ r offset search = some (p, none))
    (hnil : p.Query = []) :
    ∃ stats1 s, firstStats m r = some stats1 ∧
      qr.dbm.QueryRowGlobal (globalQuery stats1)
        [Arg.uint instanceId, Arg.time begin, Arg.time end_] = .ok (0, s) := by
  rcases Profile_spec m qr instanceId begin end_ r offset search p none h with
    ⟨_, _, _, he⟩ | ⟨_, hagg⟩
  · simp at he
  · obtain ⟨stats1, hs1, hcases⟩ := profileAggregate_spec _ _ _ _ _ _ _ _ _ _ _ hagg
    rcases hcases with ⟨_, he⟩ | ⟨c, _, hcases⟩
    · exact absurd rfl he
    · rcases hcases with ⟨_, he⟩ | ⟨tt, s, hg, hcases⟩
      · exact absurd rfl he
      · rcases hcases with ⟨rfl, _, _⟩ | ⟨_, hr⟩
        · exact ⟨stats1, s, hs1, hg⟩
        · obtain ⟨log0, _, hhead, _, _⟩ := profileRanked_spec _ _ _ _ _ _ _ _ _ _ _ _ _ hr
          rw [hnil] at hhead
          simp at hhead

/-- C3, as stated, fails: on the scenario store with the window `[0, 2^34)`
`Profile` returns without error, the sums are 150, 100 and 50, and the entry
of rank 1 (count 10) has a qps of `10 / (9223372036 + 854775807/10^9)`, the
count over the seconds of the largest `time.Duration`, not `10 / 2^34`. -/
theorem Profile_ranked_ratios_counterexample :
    Reporter.Profile scenarioMetrics (⟨scenarioDB⟩ : Reporter ℚ) 1 0 17179869184 scenarioRankBy 0
      "" = some (longWindowProfile, none) ∧
    longWindowProfile.Query.map (fun e => e.Stats.Sum.Float64) = [150, 100, 50] ∧
    longWindowEntry1 ∈ longWindowProfile.Query ∧
    longWindowEntry1.Rank = 1 ∧
    longWindowEntry1.Stats.Cnt = 10 ∧
    longWindowEntry1.QPS = (10 : ℚ) / (9223372036 + 854775807 / 1000000000) ∧
    longWindowEntry1.QPS ≠
      (longWindowEntry1.Stats.Cnt : ℚ) / (((17179869184 : Int) - 0 : Int) : ℚ) := by
  have hrun : Reporter.Profile scenarioMetrics (⟨scenarioDB⟩ : Reporter ℚ) 1 0 17179869184
      scenarioRankBy 0 "" = some (longWindowProfile, none) := by
    have hsnd : (Reporter.Profile scenarioMetrics (⟨scenarioDB⟩ : Reporter ℚ) 1 0 17179869184
        scenarioRankBy 0 "").map Prod.snd = some none := by decide
    cases ho : Reporter.Profile scenarioMetrics (⟨scenarioDB⟩ : Reporter ℚ) 1 0 17179869184
        scenarioRankBy 0 "" with
    | none => simp [ho] at hsnd
    | some x =>
      obtain ⟨a, b⟩ := x
      simp only [ho, Option.map_some', Option.some.injEq] at hsnd
      subst hsnd
      simp only [longWindowProfile, ho, Option.map_some', Option.getD_some]
  have hlen : 1 < longWindowProfile.Query.length := by decide
  have hmem : longWindowEntry1 ∈ longWindowProfile.Query := by
    unfold longWindowEntry1
    rw [List.getD_eq_getElem _ _ hlen]
    exact List.getElem_mem hlen
  have hrank : longWindowEntry1.Rank = 1 := by decide
  have hcnt : longWindowEntry1.Stats.Cnt = 10 := by decide
  have hne : longWindowProfile.Query ≠ [] := by
    intro h
    rw [h] at hlen
    simp at hlen
  obtain ⟨_, _, _, _, _, _, _, _, hall⟩ := Profile_entries_spec scenarioMetrics
    (⟨scenarioDB⟩ : Reporter ℚ) 1 0 17179869184 scenarioRankBy 0 "" longWindowProfile none hrun
    hne
  have hq := (hall longWindowEntry1 hmem (by omega)).2.1
  have hsub : Time.Sub 17179869184 0 = 9223372036854775807 := by decide
  have hdiv : Int.tdiv 9223372036854775807 1000000000 = 9223372036 := by decide
  have hmod : Int.tmod 9223372036854775807 1000000000 = 854775807 := by decide
  have hsecs : (Duration.Seconds (Time.Sub 17179869184 0) : ℚ) =
      9223372036 + 854775807 / 1000000000 := by
    unfold Duration.Seconds
    rw [hsub, hdiv, hmod]
    norm_num
  have hqps : longWindowEntry1.QPS = (10 : ℚ) / (9223372036 + 854775807 / 1000000000) := by
    rw [hq, hcnt, hsecs]
    norm_num
  refine ⟨hrun, by decide, hmem, hrank, hcnt, hqps, ?_⟩
  rw [hqps, hcnt]
  norm_num

/-- C3, amended: in a profile returned without error for a window whose length
`end_ - begin` fits a `time.Duration` (at most 9223372036 seconds either way),
with non-negative sums and a positive global sum, every entry of rank at least
1 has a non-negative percentage equal to its sum over the sum of `entries[0]`,
and its qps and load are its count and sum over the seconds of the window
`end_ - begin` (the total time of the global row is not used).  `hdiv` is the
sign rule of the float division and `hsec` says that adding the zero fraction
of a whole number of seconds leaves it as it is. -/
theorem Profile_ranked_ratios [LE F] [LT F] (hdiv : ∀ a b : F, 0 ≤ a → 0 < b → 0 ≤ a / b)
    (hsec : ∀ n : Int, (n : F) + ((0 : Int) : F) / ((1000000000 : Nat) : F) = (n : F))
    (m : Metrics) (qr : Reporter F) (instanceId : Nat) (begin end_ : Time) (r : RankBy)
    (offset : Int) (search : String) (p : Profile F) (e0 : QueryRank F)
    (hlo : -9223372036 ≤ end_ - begin) (hhi : end_ - begin ≤ 9223372036)
    (h : qr.Profile m instanceId begin end_ r offset search = some (p, none))
    (hhead : p.Query.head? = some e0)
    (hsum : ∀ e ∈ p.Query, 0 ≤ e.Stats.Sum.Float64)
    (hpos : 0 < e0.Stats.Sum.Float64) :
    ∀ e ∈ p.Query, 1 ≤ e.Rank →
      0 ≤ e.Percentage ∧
      e.Percentage = e.Stats.Sum.Float64 / e0.Stats.Sum.Float64 ∧
      e.QPS = (e.Stats.Cnt : F) / ((end_ - begin : Int) : F) ∧
      e.Load = e.Stats.Sum.Float64 / ((end_ - begin : Int) : F) := by
  have hne : p.Query ≠ [] := by
    intro hnil
    rw [hnil] at hhead
    simp at hhead
  obtain ⟨stats1, s, log0, _, _, _, _, hh, hall⟩ :=
    Profile_entries_spec m qr instanceId begin end_ r offset search p none h hne
  rw [hhead] at hh
  have hs : e0.Stats = s :=
    congrArg QueryRank.Stats (Option.some.inj hh : e0.figures = _)
  have hw := Seconds_Sub_of_fits hsec begin end_ hlo hhi
  intro e he hrank
  obtain ⟨h1, h2, h3⟩ := hall e he hrank
  rw [← hs] at h1
  rw [hw] at h2 h3
  refine ⟨?_, h1, h2, h3⟩
  rw [h1]
  exact hdiv _ _ (hsum e he) hpos

/-- C5: when `Profile` succeeds both with a search text (non-empty or not) and
with the empty one, the Stat, percentage, qps, load and series of `entries[0]`
are the same in the two results. -/
theorem Profile_global_row_ignores_search (m : Metrics) (qr : Reporter F) (instanceId : Nat)
    (begin end_ : Time) (r : RankBy) (offset : Int) (search : String) (p1 p2 : Profile F)
    (h1 : qr.Profile m instanceId begin end_ r offset search = some (p1, none))
    (h2 : qr.Profile m instanceId begin end_ r offset "" = some (p2, none)) :
    p1.Query.head?.map (fun e => (e.Stats, e.Percentage, e.QPS, e.Load, e.Log)) =
      p2.Query.head?.map (fun e => (e.Stats, e.Percentage, e.QPS, e.Load, e.Log)) := by
  have key : ∀ (q1 q2 : Profile F),
      q1.Query.head?.map QueryRank.figures = q2.Query.head?.map QueryRank.figures →
      q1.Query.head?.map (fun e => (e.Stats, e.Percentage, e.QPS, e.Load, e.Log)) =
        q2.Query.head?.map (fun e => (e.Stats, e.Percentage, e.QPS, e.Load, e.Log)) := by
    intro q1 q2 hq
    have := congrArg (Option.map (fun e : QueryRank F =>
      (e.Stats, e.Percentage, e.QPS, e.Load, e.Log))) hq
    simpa only [Option.map_map] using this
  apply key
  by_cases hn1 : p1.Query = []
  · obtain ⟨stats1, s, hs1, hg1⟩ :=
      Profile_empty_spec m qr instanceId begin end_ r offset search p1 h1 hn1
    by_cases hn2 : p2.Query = []
    · rw [hn1, hn2]
    · obtain ⟨stats2, s2, _, hs2, hg2, htt, _⟩ :=
        Profile_entries_spec m qr instanceId begin end_ r offset "" p2 none h2 hn2
      rw [hs1, Option.some.injEq] at hs2
      subst hs2
      rw [hg1] at hg2
      simp only [Except.ok.injEq, Prod.mk.injEq] at hg2
      exact absurd hg2.1.symm htt
  · obtain ⟨stats1, s1, log1, hs1, hg1, htt1, hl1, hh1, _⟩ :=
      Profile_entries_spec m qr instanceId begin end_ r offset search p1 none h1 hn1
    by_cases hn2 : p2.Query = []
    · obtain ⟨stats2, s2, hs2, hg2⟩ :=
        Profile_empty_spec m qr instanceId begin end_ r offset "" p2 h2 hn2
      rw [hs1, Option.some.injEq] at hs2
      subst hs2
      rw [hg1] at hg2
      simp only [Except.ok.injEq, Prod.mk.injEq] at hg2
      exact absurd hg2.1 htt1
    · obtain ⟨stats2, s2, log2, hs2, hg2, _, hl2, hh2, _⟩ :=
        Profile_entries_spec m qr instanceId begin end_ r offset "" p2 none h2 hn2
      rw [hs1, Option.some.injEq] at hs2
      subst hs2
      rw [hg1] at hg2
      simp only [Except.ok.injEq, Prod.mk.injEq] at hg2
      rw [hl1, Option.some.injEq] at hl2
      rw [hh1, hh2, hg2.2, hl2]

/-- The part of `Profile` after the short-circuit, on ranked rows that all
scan: it returns, `p.Query` is the global entry followed by one entry per row
in the order of the rows, each with its 1-based rank and the Stat of its row. -/
theorem profileRanked_ok (m : Metrics) (qr : Reporter F) (instanceId : Nat) (begin end_ : Time)
    (r : RankBy) (offset : Int) (searchIn : String) (stats1 stats2 : List String) (s : Stats F)
    (p1 : Profile F) (rows : List (Nat × Stats F))
    (hstats2 : secondStats m r stats1 = some stats2)
    (hspark : ∀ queryClassId, queryClassId = 0 ∨ queryClassId ∈ rows.map Prod.fst →
      SparklineData qr end_ (intervalTsOf begin end_) queryClassId instanceId begin end_ ≠ none)
    (hranked : qr.dbm.QueryRanked (rankedQuery m r stats2 searchIn offset)
      [Arg.uint instanceId, Arg.time begin, Arg.time end_] = .ok (rows.map Except.ok))
    (hn1 : 1 ≤ rows.length) (hn2 : rows.length ≤ r.Limit) :
    ∃ p err, profileRanked m qr instanceId begin end_ r offset searchIn stats1 s p1 =
        some (p, err) ∧
      p.Query.length = rows.length + 1 ∧
      p.Query.head?.map (fun e => e.Stats) = some s ∧
      (∀ k row, rows[k]? = some row →
        ∃ e, p.Query[k + 1]? = some e ∧ e.Rank = k + 1 ∧ e.Stats = row.2) := by
  obtain ⟨log0, hlog0⟩ := Option.ne_none_iff_exists'.1 (hspark 0 (Or.inl rfl))
  obtain ⟨hm1, _, hm3⟩ := made_Query r.Limit (globalEntry s (Duration.Seconds (Time.Sub end_ begin) : F) log0) rfl
  obtain ⟨st1, hloop, hrank, hids, hquery, hrows⟩ := rankLoop_ok qr end_ (intervalTsOf begin end_)
    instanceId begin end_ s.Sum.Float64 (Duration.Seconds (Time.Sub end_ begin) : F) rows
    { Query := (List.replicate (r.Limit + 1) (zeroQueryRank : QueryRank F)).set 0
        (globalEntry s (Duration.Seconds (Time.Sub end_ begin) : F) log0)
      query := [], queryClassIds := [], rank := 1 }
    (fun row hrow => hspark row.1 (Or.inr (List.mem_map_of_mem _ hrow)))
    (by simp only [hm3]; omega)
  obtain ⟨hlen, _, hkeep, _⟩ := rankLoop_inv _ _ _ _ _ _ _ _ _ _ _ _ hloop
  simp only at hrank hids hquery hrows hlen hkeep
  rw [hm3] at hlen
  have hids0 : ¬ st1.queryClassIds.length = 0 := by
    rw [hids]
    simp only [List.nil_append, List.length_map]
    omega
  have htlen : (st1.Query.take st1.rank).length = rows.length + 1 := by
    rw [List.length_take, hlen, hrank]
    omega
  have hthead : (st1.Query.take st1.rank).head?.map (fun e => e.Stats) = some s := by
    rw [List.head?_take, if_neg (by omega), List.head?_eq_getElem?, hkeep 0 (by omega),
      ← List.head?_eq_getElem?, hm1]
    rfl
  have htrows : ∀ k row, rows[k]? = some row →
      ∃ e, (st1.Query.take st1.rank)[k + 1]? = some e ∧ e.Rank = k + 1 ∧ e.Stats = row.2 := by
    intro k row hk
    obtain ⟨e, he1, he2, he3⟩ := hrows k row hk
    have hkl : k < rows.length := (List.getElem?_eq_some.1 hk).1
    refine ⟨e, ?_, by omega, he3⟩
    rw [List.getElem?_take, if_pos (by omega), ← he1]
    congr 1
    omega
  unfold profileRanked
  simp only [hlog0, hstats2, hranked, hloop, if_neg hids0]
  cases hc : qr.dbm.QueryClasses (classesQuery m st1.queryClassIds.length)
      (st1.queryClassIds.map Arg.uint) with
  | error e0 => exact ⟨_, _, rfl, htlen, hthead, htrows⟩
  | ok crows =>
    obtain ⟨Q1, err, hcl⟩ := classesLoop_some st1.query crows (st1.Query.take st1.rank)
      (by
        intro q hq
        rw [htlen]
        rcases hquery q hq with h0 | h0
        · simp at h0
        · omega)
      (by rw [htlen]; omega)
    have hfig := classesLoop_inv _ _ _ _ _ hcl
    simp only [hcl]
    refine ⟨_, _, rfl, ?_, ?_, ?_⟩
    · have := congrArg List.length hfig
      simp only [List.length_map] at this
      rw [this, htlen]
    · have h1 : Q1.head?.map QueryRank.figures =
          (st1.Query.take st1.rank).head?.map QueryRank.figures := by
        rw [← List.head?_map, hfig, List.head?_map]
      have h2 := congrArg (Option.map (fun e : QueryRank F => e.Stats)) h1
      simp only [Option.map_map] at h2
      exact h2.trans hthead
    · intro k row hk
      obtain ⟨e, he1, he2, he3⟩ := htrows k row hk
      have h1 : Q1[k + 1]?.map QueryRank.figures = some e.figures := by
        rw [← List.getElem?_map, hfig, List.getElem?_map, he1]
        rfl
      cases hq : Q1[k + 1]? with
      | none => simp [hq] at h1
      | some e1 =>
        rw [hq] at h1
        have h2 : e1.figures = e.figures := Option.some.inj h1
        exact ⟨e1, rfl,
          ((congrArg QueryRank.Rank h2 : e1.figures.Rank = e.figures.Rank)).trans he2,
          ((congrArg QueryRank.Stats h2 : e1.figures.Stats = e.figures.Stats)).trans he3⟩

theorem Profile_eq_aggregate (m : Metrics) (qr : Reporter F) (instanceId : Nat)
    (begin end_ : Time) (r : RankBy) (offset : Int) (search : String)
    (hsearch : search = "" ∨ qr.filterIds instanceId begin end_ search ≠ []) :
    qr.Profile m instanceId begin end_ r offset search =
      profileAggregate m qr instanceId begin end_ r offset
        (searchInClause search (qr.filterIds instanceId begin end_ search))
        ⟨"", begin, end_, 0, 0, r, []⟩ := by
  have hc : ¬ (search ≠ "" ∧ (qr.filterIds instanceId begin end_ search).length = 0) := by
    rintro ⟨h1, h2⟩
    rcases hsearch with h | h
    · exact h1 h
    · exact h (List.length_eq_zero.1 h2)
  unfold Reporter.Profile
  simp only
  rw [if_neg hc]

theorem profileAggregate_eq_ranked (m : Metrics) (qr : Reporter F) (instanceId : Nat)
    (begin end_ : Time) (r : RankBy) (offset : Int) (searchIn : String) (p0 : Profile F)
    (stats1 : List String) (c tt : Nat) (s : Stats F)
    (hstats1 : firstStats m r = some stats1)
    (hcount : qr.dbm.QueryRowCount (countUniqueQuery searchIn)
      [Arg.uint instanceId, Arg.time begin, Arg.time end_] = .ok c)
    (hglobal : qr.dbm.QueryRowGlobal (globalQuery stats1)
      [Arg.uint instanceId, Arg.time begin, Arg.time end_] = .ok (tt, s))
    (htt : tt ≠ 0) :
    profileAggregate m qr instanceId begin end_ r offset searchIn p0 =
      profileRanked m qr instanceId begin end_ r offset searchIn stats1 s
        { p0 with TotalQueries := c, TotalTime := tt } := by
  unfold profileAggregate
  simp only [hstats1, hcount, hglobal]
  rw [if_neg htt]

theorem profileAggregate_no_data (m : Metrics) (qr : Reporter F) (instanceId : Nat)
    (begin end_ : Time) (r : RankBy) (offset : Int) (searchIn : String) (p0 : Profile F)
    (stats1 : List String) (c : Nat) (s : Stats F)
    (hstats1 : firstStats m r = some stats1)
    (hcount : qr.dbm.QueryRowCount (countUniqueQuery searchIn)
      [Arg.uint instanceId, Arg.time begin, Arg.time end_] = .ok c)
    (hglobal : qr.dbm.QueryRowGlobal (globalQuery stats1)
      [Arg.uint instanceId, Arg.time begin, Arg.time end_] = .ok (0, s)) :
    profileAggregate m qr instanceId begin end_ r offset searchIn p0 =
      some ({ p0 with TotalQueries := c, TotalTime := 0 }, none) := by
  unfold profileAggregate
  simp only [hstats1, hcount, hglobal, if_true]

/-- C4: when the store answers the ranked statement with `n` rows, `1 ≤ n ≤
limit`, `Profile` returns a profile of `n + 1` entries: the global entry, then
for every `k` the entry of the `k`-th row (in the order of the store) with
rank `k` and the Stat of that row. -/
theorem Profile_ranked_entries (m : Metrics) (qr : Reporter F) (instanceId : Nat)
    (begin end_ : Time) (r : RankBy) (offset : Int) (search : String)
    (stats1 stats2 : List String) (c tt : Nat) (s : Stats F) (rows : List (Nat × Stats F))
    (hsearch : search = "" ∨ qr.filterIds instanceId begin end_ search ≠ [])
    (hstats1 : firstStats m r = some stats1)
    (hstats2 : secondStats m r stats1 = some stats2)
    (hcount : qr.dbm.QueryRowCount
      (countUniqueQuery (searchInClause search (qr.filterIds instanceId begin end_ search)))
      [Arg.uint instanceId, Arg.time begin, Arg.time end_] = .ok c)
    (hglobal : qr.dbm.QueryRowGlobal (globalQuery stats1)
      [Arg.uint instanceId, Arg.time begin, Arg.time end_] = .ok (tt, s))
    (htt : tt ≠ 0)
    (hspark : ∀ queryClassId, queryClassId = 0 ∨ queryClassId ∈ rows.map Prod.fst →
      SparklineData qr end_ (intervalTsOf begin end_) queryClassId instanceId begin end_ ≠ none)
    (hranked : qr.dbm.QueryRanked
      (rankedQuery m r stats2 (searchInClause search (qr.filterIds instanceId begin end_ search))
        offset)
      [Arg.uint instanceId, Arg.time begin, Arg.time end_] = .ok (rows.map Except.ok))
    (hn1 : 1 ≤ rows.length) (hn2 : rows.length ≤ r.Limit) :
    ∃ p err, qr.Profile m instanceId begin end_ r offset search = some (p, err) ∧
      p.Query.length = rows.length + 1 ∧
      p.Query.head?.map (fun e => e.Stats) = some s ∧
      (∀ k row, rows[k]? = some row →
        ∃ e, p.Query[k + 1]? = some e ∧ e.Rank = k + 1 ∧ e.Stats = row.2) := by
  rw [Profile_eq_aggregate m qr instanceId begin end_ r offset search hsearch,
    profileAggregate_eq_ranked m qr instanceId begin end_ r offset _ _ stats1 c tt s hstats1
      hcount hglobal htt]
  exact profileRanked_ok m qr instanceId begin end_ r offset _ stats1 stats2 s _ rows hstats2
    hspark hranked hn1 hn2

/-- C7, as stated, fails: on a store with 2 query classes in the window and an
all-zero global row, `Profile` returns no error, no entries, total time 0, and
`TotalQueries = 2`, not its zero value. -/
theorem Profile_no_data_counterexample :
    ∃ p, Reporter.Profile scenarioMetrics (⟨idleDB⟩ : Reporter ℚ) 1 3600 7140 scenarioRankBy 0 "" =
        some (p, none) ∧
      p.Query = [] ∧ p.TotalTime = 0 ∧ p.TotalQueries = 2 ∧ p.TotalQueries ≠ 0 :=
  ⟨⟨"", 3600, 7140, 0, 2, scenarioRankBy, []⟩, by decide, rfl, rfl, rfl, by decide⟩

/-- C7, amended: when the search text is empty or the filter returned an id,
the count statement answers `c`, and the global row has total time 0,
`Profile` returns no error and a profile without entries in which the window,
`RankBy` and `TotalQueries = c` are set and every other field is zero. -/
theorem Profile_no_data (m : Metrics) (qr : Reporter F) (instanceId : Nat)
    (begin end_ : Time) (r : RankBy) (offset : Int) (search : String)
    (stats1 : List String) (c : Nat) (s : Stats F)
    (hsearch : search = "" ∨ qr.filterIds instanceId begin end_ search ≠ [])
    (hstats1 : firstStats m r = some stats1)
    (hcount : qr.dbm.QueryRowCount
      (countUniqueQuery (searchInClause search (qr.filterIds instanceId begin end_ search)))
      [Arg.uint instanceId, Arg.time begin, Arg.time end_] = .ok c)
    (hglobal : qr.dbm.QueryRowGlobal (globalQuery stats1)
      [Arg.uint instanceId, Arg.time begin, Arg.time end_] = .ok (0, s)) :
    qr.Profile m instanceId begin end_ r offset search =
      some (⟨"", begin, end_, 0, c, r, []⟩, none) := by
  rw [Profile_eq_aggregate m qr instanceId begin end_ r offset search hsearch,
    profileAggregate_no_data m qr instanceId begin end_ r offset _ _ stats1 c s hstats1 hcount
      hglobal]

/-- C8, as stated, fails: on a store whose global row has 120 covered seconds
and sum 0, `Profile` gets past the short-circuit (it returns 3 entries and no
error) and the global sum it divides by is 0. -/
theorem Profile_zero_global_sum_counterexample :
    (Reporter.Profile scenarioMetrics (⟨zeroSumDB⟩ : Reporter ℚ) 1 3600 7140 scenarioRankBy 0
        "").map
      (fun x => (x.1.TotalTime, x.1.Query.length,
        x.1.Query.head?.map (fun e => e.Stats.Sum.Float64), x.2)) =
    some (120, 3, some 0, none) := by
  decide

/-- C8, amended: when `Profile` gets past the short-circuit (it returns
entries), the total time is not 0 and the ranked entries are divided by the
sum of `entries[0]`; that sum is not 0 on a store whose global rows have sum 0
only with total time 0 (`hstore`), which the reporter does not check. -/
theorem Profile_divisor_nonzero (m : Metrics) (qr : Reporter F) (instanceId : Nat)
    (begin end_ : Time) (r : RankBy) (offset : Int) (search : String) (p : Profile F)
    (err : Option GoError)
    (h : qr.Profile m instanceId begin end_ r offset search = some (p, err))
    (hpast : p.Query ≠ [])
    (hstore : ∀ q args tt s, qr.dbm.QueryRowGlobal q args = .ok (tt, s) →
      s.Sum.Float64 = 0 → tt = 0) :
    p.TotalTime ≠ 0 ∧
    ∃ e0, p.Query.head? = some e0 ∧ e0.Stats.Sum.Float64 ≠ 0 ∧
      ∀ e ∈ p.Query, 1 ≤ e.Rank →
        e.Percentage = e.Stats.Sum.Float64 / e0.Stats.Sum.Float64 := by
  obtain ⟨stats1, s, log0, _, hg, htt, _, hh, hall⟩ :=
    Profile_entries_spec m qr instanceId begin end_ r offset search p err h hpast
  refine ⟨htt, ?_⟩
  cases hq : p.Query.head? with
  | none => simp [hq] at hh
  | some e0 =>
    rw [hq] at hh
    have hs : e0.Stats = s :=
      congrArg QueryRank.Stats (Option.some.inj hh : e0.figures = _)
    refine ⟨e0, rfl, ?_, ?_⟩
    · rw [hs]
      exact fun h0 => htt (hstore _ _ _ _ hg h0)
    · intro e he hr
      rw [hs]
      exact (hall e he hr).1

/-- C6 at two stores.  When the statement of the filter fails,
`filterByFingerprint` returns the store error but `Profile` returns the "no
match" error built from `nil`.  When the second row of the filter does not
scan, `filterByFingerprint` returns the one id read and the error, and
`Profile` goes on with the clause of that one id and returns a profile of 3
entries without error. -/
theorem Profile_drops_filter_error :
    Reporter.filterByFingerprint (⟨lostFilterDB⟩ : Reporter ℚ) 1 3600 7140 "select" =
      ([], some (.mysqlError (some "connection lost")
        "Reporter.filterByFingerprint: SELECT query_classes AS qc, query_examples AS qe LIKE")) ∧
    Reporter.Profile scenarioMetrics (⟨lostFilterDB⟩ : Reporter ℚ) 1 3600 7140 scenarioRankBy 0
        "select" =
      some (⟨"", 3600, 7140, 0, 0, scenarioRankBy, []⟩, some (.mysqlError none
        "None of the queries, in selected time range, do not contain this substring.")) ∧
    Reporter.filterByFingerprint (⟨halfFilterDB⟩ : Reporter ℚ) 1 3600 7140 "select" =
      ([1], some (.mysqlError (some "bad row")
        "Reporter.filterByFingerprint: SELECT query_classes AS qc LIKE")) ∧
    searchInClause "select"
        (Reporter.filterIds (⟨halfFilterDB⟩ : Reporter ℚ) 1 3600 7140 "select") =
      " AND query_class_id IN (1) " ∧
    (Reporter.Profile scenarioMetrics (⟨halfFilterDB⟩ : Reporter ℚ) 1 3600 7140 scenarioRankBy 0
        "select").map (fun x => (x.1.TotalQueries, x.1.Query.length, x.2)) =
      some (2, 3, none) := by
  decide

/-- The defect behind C6 on every store: a failed statement of the filter
makes `Profile` return the "no match" error, whatever the store error was. -/
theorem Profile_filter_error_is_no_match (m : Metrics) (qr : Reporter F) (instanceId : Nat)
    (begin end_ : Time) (r : RankBy) (offset : Int) (search : String) (e0 : DBErr)
    (hsearch : search ≠ "")
    (hfail : qr.dbm.QueryFingerprint filterQuery
      [Arg.uint instanceId, Arg.time begin, Arg.time end_, Arg.str search,
        Arg.str (search ++ "%"), Arg.str ("%" ++ search ++ "%")] = .error e0) :
    qr.Profile m instanceId begin end_ r offset search =
      some (⟨"", begin, end_, 0, 0, r, []⟩, some (.mysqlError none
        "None of the queries, in selected time range, do not contain this substring.")) := by
  have hids : qr.filterIds instanceId begin end_ search = [] := by
    simp only [Reporter.filterIds, Reporter.filterByFingerprint, hfail, if_pos hsearch]
  unfold Reporter.Profile
  simp only [hids]
  rw [if_pos ⟨hsearch, rfl⟩]

end ProfileThms

/-! ## Concrete runs of Profile -/

section ProfileRuns

theorem eq_some_getD {α β : Type} (o : Option (α × Option β)) (d : α)
    (h : o.map Prod.snd = some none) : o = some ((o.map Prod.fst).getD d, none) := by
  cases o with
  | none => simp at h
  | some x =>
    obtain ⟨a, b⟩ := x
    simp only [Option.map_some', Option.some.injEq] at h
    subst h
    rfl

theorem head?_eq_headD {α : Type} (l : List α) (d : α) (h : l ≠ []) :
    l.head? = some (l.headD d) := by
  cases l with
  | nil => exact absurd rfl h
  | cons a l => rfl

theorem getD_mem {α : Type} (l : List α) (i : Nat) (d : α) (h : i < l.length) :
    l.getD i d ∈ l := by
  rw [List.getD_eq_getElem l d h]
  exact List.getElem_mem h

theorem scenario_run :
    Reporter.Profile scenarioMetrics (⟨scenarioDB⟩ : Reporter ℚ) 1 3600 7140 scenarioRankBy 0 "" =
      some (scenarioProfile, none) :=
  eq_some_getD _ _ (by decide)

theorem scenario_search_run :
    Reporter.Profile scenarioMetrics (⟨scenarioDB⟩ : Reporter ℚ) 1 3600 7140 scenarioRankBy 0
      "select" = some (scenarioSearchProfile, none) :=
  eq_some_getD _ _ (by decide)

theorem scenario_sums :
    scenarioProfile.Query.map (fun e => e.Stats.Sum.Float64) = [150, 100, 50] := by
  decide

theorem scenario_stats :
    firstStats scenarioMetrics scenarioRankBy = some ["sum(Query_time)", "min(Query_time)",
      "avg(Query_time)", "med(Query_time)", "p95(Query_time)", "max(Query_time)"] ∧
    secondStats scenarioMetrics scenarioRankBy ["sum(Query_time)", "min(Query_time)",
      "avg(Query_time)", "med(Query_time)", "p95(Query_time)", "max(Query_time)"] =
      some ["sum(Query_time)", "min(Query_time)",
      "avg(Query_time)", "med(Query_time)", "p95(Query_time)", "max(Query_time)"] := by
  decide

theorem scenario_series (queryClassId : Nat) :
    SparklineData (⟨scenarioDB⟩ : Reporter ℚ) 7140 (intervalTsOf 3600 7140) queryClassId 1 3600
      7140 ≠ none := by
  by_cases hq : queryClassId = 0
  · subst hq
    decide
  · simp [SparklineData, sparkStatement, hq, scenarioDB, tableSpark]

theorem Profile_ranked_ratios_witness :
    0 ≤ scenarioEntry1.Percentage ∧
    scenarioEntry1.Percentage =
      scenarioEntry1.Stats.Sum.Float64 / scenarioEntry0.Stats.Sum.Float64 ∧
    scenarioEntry1.QPS = (scenarioEntry1.Stats.Cnt : ℚ) / (((7140 : Int) - 3600 : Int) : ℚ) ∧
    scenarioEntry1.Load =
      scenarioEntry1.Stats.Sum.Float64 / (((7140 : Int) - 3600 : Int) : ℚ) :=
  Profile_ranked_ratios (fun _ _ ha hb => div_nonneg ha (le_of_lt hb)) (fun n => by simp)
    scenarioMetrics ⟨scenarioDB⟩ 1 3600 7140 scenarioRankBy 0 "" scenarioProfile scenarioEntry0
    (by decide) (by decide) scenario_run
    (head?_eq_headD _ _ (by decide))
    (by
      have h : ∀ x ∈ scenarioProfile.Query.map (fun e => e.Stats.Sum.Float64), (0 : ℚ) ≤ x := by
        rw [scenario_sums]
        intro x hx
        simp only [List.mem_cons, List.mem_singleton, List.not_mem_nil, or_false] at hx
        rcases hx with rfl | rfl | rfl <;> norm_num
      exact fun e he => h _ (List.mem_map_of_mem _ he))
    (by
      have h : scenarioEntry0.Stats.Sum.Float64 = 150 := by decide
      rw [h]
      norm_num)
    scenarioEntry1 (getD_mem _ _ _ (by decide)) (by decide)

theorem Profile_ranked_entries_witness :
    ∃ p err, Reporter.Profile scenarioMetrics (⟨scenarioDB⟩ : Reporter ℚ) 1 3600 7140
        scenarioRankBy 0 "" = some (p, err) ∧
      p.Query.length = [(1, statOf 10 100), (2, statOf 5 50)].length + 1 ∧
      p.Query.head?.map (fun e => e.Stats) = some (statOf 15 150) ∧
      (∀ k row, [(1, statOf 10 100), (2, statOf 5 50)][k]? = some row →
        ∃ e, p.Query[k + 1]? = some e ∧ e.Rank = k + 1 ∧ e.Stats = row.2) :=
  Profile_ranked_entries scenarioMetrics ⟨scenarioDB⟩ 1 3600 7140 scenarioRankBy 0 ""
    _ _ 2 120 (statOf 15 150) [(1, statOf 10 100), (2, statOf 5 50)]
    (Or.inl rfl) scenario_stats.1 scenario_stats.2 rfl rfl (by decide)
    (fun queryClassId _ => scenario_series queryClassId) rfl
    (by decide) (by decide)

theorem Profile_global_row_ignores_search_witness :
    scenarioSearchProfile.Query.head?.map
        (fun e => (e.Stats, e.Percentage, e.QPS, e.Load, e.Log)) =
      scenarioProfile.Query.head?.map (fun e => (e.Stats, e.Percentage, e.QPS, e.Load, e.Log)) :=
  Profile_global_row_ignores_search scenarioMetrics ⟨scenarioDB⟩ 1 3600 7140 scenarioRankBy 0
    "select" scenarioSearchProfile scenarioProfile scenario_search_run scenario_run

theorem Profile_no_data_witness :
    Reporter.Profile scenarioMetrics (⟨idleDB⟩ : Reporter ℚ) 1 3600 7140 scenarioRankBy 0 "" =
      some (⟨"", 3600, 7140, 0, 2, scenarioRankBy, []⟩, none) :=
  Profile_no_data scenarioMetrics ⟨idleDB⟩ 1 3600 7140 scenarioRankBy 0 "" _ 2 (statOf 0 0)
    (Or.inl rfl) scenario_stats.1 rfl rfl

theorem Profile_divisor_nonzero_witness :
    scenarioProfile.TotalTime ≠ 0 ∧
    ∃ e0, scenarioProfile.Query.head? = some e0 ∧ e0.Stats.Sum.Float64 ≠ 0 ∧
      ∀ e ∈ scenarioProfile.Query, 1 ≤ e.Rank →
        e.Percentage = e.Stats.Sum.Float64 / e0.Stats.Sum.Float64 :=
  Profile_divisor_nonzero scenarioMetrics ⟨scenarioDB⟩ 1 3600 7140 scenarioRankBy 0 ""
    scenarioProfile none scenario_run (by decide)
    (by
      intro q args tt s hg h0
      have hg2 : (Except.ok (120, statOf 15 150) : Except DBErr (Nat × Stats ℚ)) =
          .ok (tt, s) := hg
      simp only [Except.ok.injEq, Prod.mk.injEq] at hg2
      obtain ⟨_, rfl⟩ := hg2
      have h150 : (150 : ℚ) = 0 := h0
      norm_num at h150)

end ProfileRuns

end Qan
